import Mathlib

/-!
# Payment controller: validation, signature check, persistence

A shallow embedding of `src/server/src/controllers/paymentController.js`.

* Request bodies are JSON objects: association lists from keys to `JsVal`.
* A number is the rational value of a double, `NaN` or an infinity. Arithmetic is the
  arithmetic of doubles: the exact result rounded to the nearest double, ties to even.
  A `num q` in a request or a row stands for the number literal `q`, which arithmetic
  reads as the nearest double.
* Every collaborator the controller awaits (the HMAC primitive, the gateway client,
  the connection pool, the payment service, the apartment controller) is a field of
  `World`; a collaborator that can throw returns `Except String _`, the string being
  the thrown error's message.
* A handler returns the response it writes together with the ordered list of
  collaborator calls it made.
-/

namespace PaymentController

/-! ## Values -/

/-- JavaScript values as far as the controller can observe them. -/
inductive JsVal where
  | undefined
  | null
  | bool (b : Bool)
  | num (q : ℚ)
  | nan
  | str (s : String)
  | obj (fields : List (String × JsVal))
  | inf (negative : Bool)

/-- A parsed JSON object: `req.body`, a result row, a collaborator's result. -/
abbrev Body := List (String × JsVal)

/-- Truthiness, i.e. the value of `!!v`. -/
def truthy : JsVal → Bool
  | .undefined => false
  | .null => false
  | .bool b => b
  | .num q => q != 0
  | .nan => false
  | .str s => s != ""
  | .obj _ => true
  | .inf _ => true

/-- Destructuring `const { k } = body`: the value under `k`, `undefined` when there is none. -/
def field (body : Body) (k : String) : JsVal :=
  match body.lookup k with
  | some v => v
  | none => .undefined

/-- Member access `v.k` for the plain data names the controller reads. Reading a member of
`undefined` or `null` throws a TypeError; a primitive has none of these names. -/
def getProp (v : JsVal) (k : String) : Except String JsVal :=
  match v with
  | .undefined => .error ("Cannot read properties of undefined, reading " ++ k)
  | .null => .error ("Cannot read properties of null, reading " ++ k)
  | .obj fields => .ok (field fields k)
  | _ => .ok .undefined

/-- Strict equality `a === b`. Two objects obtained from different sources are never the
same reference, and `NaN` is not equal to itself. -/
def strictEq : JsVal → JsVal → Bool
  | .undefined, .undefined => true
  | .null, .null => true
  | .bool a, .bool b => a == b
  | .num a, .num b => a == b
  | .str a, .str b => a == b
  | .inf a, .inf b => a == b
  | _, _ => false

/-- The expression `v || null`. -/
def orNull (v : JsVal) : JsVal :=
  if truthy v then v else .null

/-- String conversion as done by a template literal; `numToString` is the host's
Number-to-string conversion. -/
def toStr (numToString : ℚ → String) : JsVal → String
  | .undefined => "undefined"
  | .null => "null"
  | .bool true => "true"
  | .bool false => "false"
  | .num q => numToString q
  | .nan => "NaN"
  | .str s => s
  | .obj _ => "[object Object]"
  | .inf false => "Infinity"
  | .inf true => "-Infinity"

/-! ## Responses, calls, collaborators -/

/-- What a handler writes with `res.status(..).json(..)`. -/
inductive Response where
  /-- The body `{ success: false, message, errors?, error? }`. -/
  | fail (status : Nat) (message : String) (errors : Option (List String))
      (error : Option String)
  /-- An object sent as the body: a collaborator's own result, or one the handler builds. -/
  | json (status : Nat) (body : JsVal)
  /-- The body `{ success: true, message, razorpay_payment_id, razorpay_order_id }`, status 200. -/
  | verified (message : String) (razorpay_payment_id razorpay_order_id : JsVal)

/-- The object literal passed to `new paymentModel({...})` in `createPayment`. -/
structure Payment where
  user_id : JsVal
  property_id : JsVal
  total_price : JsVal
  amount_paid : JsVal
  payment_method : JsVal
  payment_details : JsVal
  status : JsVal
  payment_date : Nat
  invoice_number : JsVal
  is_deposit : Bool

/-- Collaborator calls, in the order a handler makes them. -/
inductive Call where
  | bookApartment (body : Body)
  | hmac (message : String)
  | propertyPriceQuery (property_id : JsVal)
  | createMyPayment (payment : Payment)
  | fetchPayment (razorpay_payment_id : JsVal)
  | fetchOrder (razorpay_order_id : JsVal)
  | warnAmountMismatch

/-- The environment of one request. -/
structure World where
  /-- Hex digest of `crypto.createHmac("sha256", config.razorpay.keySecret).update(m)`. -/
  hmacSha256Hex : String → Except String String
  /-- Number-to-string conversion of the host. -/
  numToString : ℚ → String
  /-- The host's global `parseFloat`. -/
  parseFloat : JsVal → JsVal
  /-- The value of `new Date()`, as epoch milliseconds. -/
  now : Nat
  /-- The response `apartmentController.bookApartment(req, res)` writes. -/
  bookApartment : Body → Response
  /-- Rows of `SELECT price FROM properties WHERE id = ?`. -/
  propertyPriceQuery : JsVal → Except String (List JsVal)
  /-- Result of `paymentService.createMyPayment`. -/
  createMyPayment : Payment → Except String JsVal
  /-- Result of `razorpay.payments.fetch`. -/
  fetchPayment : JsVal → Except String JsVal
  /-- Result of `razorpay.orders.fetch`. -/
  fetchOrder : JsVal → Except String JsVal

/-- A handler's observable result. -/
structure Outcome where
  response : Response
  calls : List Call

/-- The payments handed to `createMyPayment`, in order. -/
def persisted (o : Outcome) : List Payment :=
  o.calls.filterMap fun c =>
    match c with
    | .createMyPayment p => some p
    | _ => none

/-- The ids passed to the property price lookup, in order. -/
def priceLookups (o : Outcome) : List JsVal :=
  o.calls.filterMap fun c =>
    match c with
    | .propertyPriceQuery id => some id
    | _ => none

/-- The gateway fetches (payment or order) a handler made. -/
def gatewayFetches (o : Outcome) : List Call :=
  o.calls.filter fun c =>
    match c with
    | .fetchPayment _ => true
    | .fetchOrder _ => true
    | _ => false

/-! ## createPayment -/

/-- The accepted values of `payment_method`. -/
def validMethods : List String := ["credit_card", "card", "upi", "razorpay"]

/-- The test `validMethods.includes(payment_method)`. -/
def includesMethod (payment_method : JsVal) : Bool :=
  validMethods.any fun m => strictEq (.str m) payment_method

/-- The card branch of the detail validation. `none`: no response written, go on. -/
def cardChecks (payment_details : JsVal) : Except String (Option Response) := do
  let cardValidationErrors : List String := []
  let card_holder ← getProp payment_details "card_holder"
  let cardValidationErrors :=
    if !truthy card_holder then cardValidationErrors ++ ["card_holder is required"]
    else cardValidationErrors
  let card_number ← getProp payment_details "card_number"
  let cardValidationErrors :=
    if !truthy card_number then cardValidationErrors ++ ["card_number is required"]
    else cardValidationErrors
  let expiry_date ← getProp payment_details "expiry_date"
  let cardValidationErrors :=
    if !truthy expiry_date then cardValidationErrors ++ ["expiry_date is required"]
    else cardValidationErrors
  let cvv ← getProp payment_details "cvv"
  let cardValidationErrors :=
    if !truthy cvv then cardValidationErrors ++ ["cvv is required"]
    else cardValidationErrors
  if cardValidationErrors.length > 0 then
    return some (.fail 400 "Card details validation failed" (some cardValidationErrors) none)
  return none

/-- The UPI branch of the detail validation. -/
def upiChecks (payment_details : JsVal) : Except String (Option Response) := do
  let upi_id ← getProp payment_details "upi_id"
  if !truthy upi_id then
    return some (.fail 400 "UPI ID is required for UPI payments" none none)
  return none

/-- The three Razorpay detail fields, read from `payment_details`. -/
def razorpayFields (payment_details : JsVal) : Except String (JsVal × JsVal × JsVal) := do
  let razorpay_payment_id ← getProp payment_details "razorpay_payment_id"
  let razorpay_order_id ← getProp payment_details "razorpay_order_id"
  let razorpay_signature ← getProp payment_details "razorpay_signature"
  return (razorpay_payment_id, razorpay_order_id, razorpay_signature)

/-- The text that is signed: the template literal with order id, a bar, payment id. -/
def signedMessage (w : World) (razorpay_order_id razorpay_payment_id : JsVal) : String :=
  toStr w.numToString razorpay_order_id ++ "|" ++ toStr w.numToString razorpay_payment_id

/-- The Razorpay branch: detail validation, then the inline signature check with its own
try/catch. -/
def razorpayChecks (w : World) (payment_details : JsVal) :
    Except String (Option Response) × List Call :=
  match razorpayFields payment_details with
  | .error e => (.error e, [])
  | .ok (razorpay_payment_id, razorpay_order_id, razorpay_signature) =>
    let razorpayValidationErrors : List String := []
    let razorpayValidationErrors :=
      if !truthy razorpay_payment_id then
        razorpayValidationErrors ++ ["razorpay_payment_id is required"]
      else razorpayValidationErrors
    let razorpayValidationErrors :=
      if !truthy razorpay_order_id then
        razorpayValidationErrors ++ ["razorpay_order_id is required"]
      else razorpayValidationErrors
    let razorpayValidationErrors :=
      if !truthy razorpay_signature then
        razorpayValidationErrors ++ ["razorpay_signature is required"]
      else razorpayValidationErrors
    if razorpayValidationErrors.length > 0 then
      (.ok (some (.fail 400 "Razorpay details validation failed"
        (some razorpayValidationErrors) none)), [])
    else
      let message := signedMessage w razorpay_order_id razorpay_payment_id
      match w.hmacSha256Hex message with
      | .error e =>
        (.ok (some (.fail 400 "Error verifying signature" none (some e))), [.hmac message])
      | .ok generatedSignature =>
        if !strictEq (.str generatedSignature) razorpay_signature then
          (.ok (some (.fail 400 "Invalid Razorpay signature" none none)), [.hmac message])
        else
          (.ok none, [.hmac message])

/-- The detail validation, by payment method. -/
def detailChecks (w : World) (payment_method payment_details : JsVal) :
    Except String (Option Response) × List Call :=
  if strictEq payment_method (.str "credit_card") || strictEq payment_method (.str "card") then
    (cardChecks payment_details, [])
  else if strictEq payment_method (.str "upi") then
    (upiChecks payment_details, [])
  else if strictEq payment_method (.str "razorpay") then
    razorpayChecks w payment_details
  else
    (.ok none, [])

/-- The object `sanitizedPaymentDetails`. -/
def sanitizedPaymentDetails (payment_details : JsVal) : Except String JsVal := do
  let card_holder ← getProp payment_details "card_holder"
  let card_number ← getProp payment_details "card_number"
  let expiry_date ← getProp payment_details "expiry_date"
  let cvv ← getProp payment_details "cvv"
  let upi_id ← getProp payment_details "upi_id"
  let razorpay_payment_id ← getProp payment_details "razorpay_payment_id"
  let razorpay_order_id ← getProp payment_details "razorpay_order_id"
  let razorpay_signature ← getProp payment_details "razorpay_signature"
  return .obj [
    ("card_holder", orNull card_holder),
    ("card_number", orNull card_number),
    ("expiry_date", orNull expiry_date),
    ("cvv", orNull cvv),
    ("upi_id", orNull upi_id),
    ("razorpay_payment_id", orNull razorpay_payment_id),
    ("razorpay_order_id", orNull razorpay_order_id),
    ("razorpay_signature", orNull razorpay_signature)]

/-- The value of `finalTotalPrice` after the deposit block, with the lookup made (if any).
Whatever the lookup throws is caught and only logged. -/
def finalTotalPrice (w : World) (total_price is_deposit property_id : JsVal) :
    JsVal × List Call :=
  let finalTotalPrice := total_price
  if truthy is_deposit && !truthy finalTotalPrice then
    match w.propertyPriceQuery property_id with
    | .error _ => (finalTotalPrice, [.propertyPriceQuery property_id])
    | .ok [] => (finalTotalPrice, [.propertyPriceQuery property_id])
    | .ok (row :: _) =>
      match getProp row "price" with
      | .error _ => (finalTotalPrice, [.propertyPriceQuery property_id])
      | .ok price =>
        if truthy price then (w.parseFloat price, [.propertyPriceQuery property_id])
        else (finalTotalPrice, [.propertyPriceQuery property_id])
  else
    (finalTotalPrice, [])

/-- The value of `standardizedMethod`. -/
def standardizedMethod (payment_method : JsVal) : JsVal :=
  if strictEq payment_method (.str "card") then .str "credit_card" else payment_method

/-- The object literal passed to `new paymentModel({...})`. -/
def newPayment (w : World) (body : Body) (sanitizedPaymentDetails finalTotalPrice : JsVal) :
    Payment :=
  { user_id := field body "user_id"
    property_id := field body "property_id"
    total_price := orNull finalTotalPrice
    amount_paid := field body "amount_paid"
    payment_method := standardizedMethod (field body "payment_method")
    payment_details := sanitizedPaymentDetails
    status := field body "status"
    payment_date := w.now
    invoice_number := orNull (field body "invoice_number")
    is_deposit := truthy (field body "is_deposit") }

/-- From `standardizedMethod` to the response: build the record, persist it, pass the
service's result through. -/
def persistPayment (w : World) (body : Body) : Except String Response × List Call :=
  match sanitizedPaymentDetails (field body "payment_details") with
  | .error e => (.error e, [])
  | .ok sanitized =>
    let (finalPrice, lookups) :=
      finalTotalPrice w (field body "total_price") (field body "is_deposit")
        (field body "property_id")
    let payment := newPayment w body sanitized finalPrice
    match w.createMyPayment payment with
    | .error e => (.error e, lookups ++ [.createMyPayment payment])
    | .ok result =>
      match getProp result "success" with
      | .error e => (.error e, lookups ++ [.createMyPayment payment])
      | .ok success =>
        (.ok (.json (if truthy success then 200 else 400) result),
          lookups ++ [.createMyPayment payment])

/-- The six pushes onto `validationErrors` at the top of `createPayment`. -/
def topLevelErrors (body : Body) : List String :=
  let validationErrors : List String := []
  let validationErrors :=
    if !truthy (field body "user_id") then validationErrors ++ ["user_id is required"]
    else validationErrors
  let validationErrors :=
    if !truthy (field body "property_id") then validationErrors ++ ["property_id is required"]
    else validationErrors
  let validationErrors :=
    if !truthy (field body "amount_paid") then validationErrors ++ ["amount_paid is required"]
    else validationErrors
  let validationErrors :=
    if !truthy (field body "payment_method") then
      validationErrors ++ ["payment_method is required"]
    else validationErrors
  let validationErrors :=
    if !truthy (field body "payment_details") then
      validationErrors ++ ["payment_details is required"]
    else validationErrors
  let validationErrors :=
    if !truthy (field body "status") then validationErrors ++ ["status is required"]
    else validationErrors
  validationErrors

/-- The body of the `try` block of `createPayment`. The dynamic import of the apartment
controller, a module of this repository, is taken to succeed; the handler then returns
whatever `bookApartment(req, res)` does. -/
def createPaymentTry (w : World) (body : Body) : Except String Response × List Call :=
  let validationErrors := topLevelErrors body
  if truthy (field body "is_apartment") && truthy (field body "unit_id") then
    (.ok (w.bookApartment body), [.bookApartment body])
  else if validationErrors.length > 0 then
    (.ok (.fail 400 "Validation failed" (some validationErrors) none), [])
  else if !includesMethod (field body "payment_method") then
    (.ok (.fail 400 "Invalid payment method. Accepted methods: credit card, UPI, Razorpay"
      none none), [])
  else
    match detailChecks w (field body "payment_method") (field body "payment_details") with
    | (.error e, calls) => (.error e, calls)
    | (.ok (some response), calls) => (.ok response, calls)
    | (.ok none, calls) =>
      match persistPayment w body with
      | (r, calls2) => (r, calls ++ calls2)

/-- The handler `createPayment`: the `try` block, and the `catch` that answers 500. -/
def createPayment (w : World) (body : Body) : Outcome :=
  match createPaymentTry w body with
  | (.ok response, calls) => ⟨response, calls⟩
  | (.error e, calls) =>
    ⟨.fail 500 "Server error while processing payment" none (some e), calls⟩

/-! ## verifyRazorpayPayment -/

/-- The three pushes onto `validationErrors` at the top of `verifyRazorpayPayment`. -/
def verifyParamErrors (body : Body) : List String :=
  let validationErrors : List String := []
  let validationErrors :=
    if !truthy (field body "razorpay_order_id") then
      validationErrors ++ ["razorpay_order_id is required"]
    else validationErrors
  let validationErrors :=
    if !truthy (field body "razorpay_payment_id") then
      validationErrors ++ ["razorpay_payment_id is required"]
    else validationErrors
  let validationErrors :=
    if !truthy (field body "razorpay_signature") then
      validationErrors ++ ["razorpay_signature is required"]
    else validationErrors
  validationErrors

/-- The best-effort order check: fetch the order, warn when its amount is not the payment's.
Whatever is thrown here is caught and only logged. -/
def orderAmountCheck (w : World) (razorpay_order_id paymentDetails : JsVal) : List Call :=
  match w.fetchOrder razorpay_order_id with
  | .error _ => [.fetchOrder razorpay_order_id]
  | .ok orderDetails =>
    match getProp orderDetails "amount", getProp paymentDetails "amount" with
    | .ok orderAmount, .ok paymentAmount =>
      if !strictEq orderAmount paymentAmount then
        [.fetchOrder razorpay_order_id, .warnAmountMismatch]
      else [.fetchOrder razorpay_order_id]
    | _, _ => [.fetchOrder razorpay_order_id]

/-- The handler `verifyRazorpayPayment`. Every throwing step sits in an inner try/catch, so
the outer `catch` (status 500) is never entered for an object body. -/
def verifyRazorpayPayment (w : World) (body : Body) : Outcome :=
  let razorpay_order_id := field body "razorpay_order_id"
  let razorpay_payment_id := field body "razorpay_payment_id"
  let razorpay_signature := field body "razorpay_signature"
  let validationErrors := verifyParamErrors body
  if validationErrors.length > 0 then
    ⟨.fail 400 "Payment verification failed: Missing required parameters"
      (some validationErrors) none, []⟩
  else
    let message := signedMessage w razorpay_order_id razorpay_payment_id
    match w.hmacSha256Hex message with
    | .error e =>
      ⟨.fail 400 "Error generating signature for verification" none (some e), [.hmac message]⟩
    | .ok generatedSignature =>
      if !strictEq (.str generatedSignature) razorpay_signature then
        ⟨.fail 400 "Invalid payment signature. Payment verification failed." none none,
          [.hmac message]⟩
      else
        let success :=
          Response.verified "Payment verification successful" razorpay_payment_id
            razorpay_order_id
        match w.fetchPayment razorpay_payment_id with
        | .error _ => ⟨success, [.hmac message, .fetchPayment razorpay_payment_id]⟩
        | .ok paymentDetails =>
          match getProp paymentDetails "status" with
          | .error _ => ⟨success, [.hmac message, .fetchPayment razorpay_payment_id]⟩
          | .ok status =>
            if !strictEq status (.str "authorized") && !strictEq status (.str "captured") then
              ⟨.fail 400 ("Payment verification failed. Payment status is " ++
                  toStr w.numToString status) none none,
                [.hmac message, .fetchPayment razorpay_payment_id]⟩
            else
              ⟨success, [.hmac message, .fetchPayment razorpay_payment_id] ++
                orderAmountCheck w razorpay_order_id paymentDetails⟩

/-! ## Vocabulary of the specification -/

/-- The request is handed to the apartment workflow: `is_apartment && unit_id`. -/
def delegated (body : Body) : Bool :=
  truthy (field body "is_apartment") && truthy (field body "unit_id")

/-- The six required top-level fields, in the order they are checked. -/
def requiredTopLevel : List String :=
  ["user_id", "property_id", "amount_paid", "payment_method", "payment_details", "status"]

/-- The message reported for a missing field. -/
def requiredMessage (f : String) : String := f ++ " is required"

/-- The required top-level fields whose value is missing (falsy), in checking order. -/
def missingTopLevel (body : Body) : List String :=
  requiredTopLevel.filter fun f => !truthy (field body f)

/-- The value read by `v.k`, `undefined` where the read would throw. -/
def readOr (v : JsVal) (k : String) : JsVal :=
  match getProp v k with
  | .ok x => x
  | .error _ => .undefined

/-- The value of `payment_details.k`. -/
def detailField (body : Body) (k : String) : JsVal :=
  readOr (field body "payment_details") k

/-- The detail fields the card branch requires, in checking order. -/
def cardFields : List String := ["card_holder", "card_number", "expiry_date", "cvv"]

/-- The detail fields the Razorpay branch requires, in checking order. -/
def razorpayFieldNames : List String :=
  ["razorpay_payment_id", "razorpay_order_id", "razorpay_signature"]

/-- The detail fields a payment method requires. -/
def requiredDetails (payment_method : JsVal) : List String :=
  if strictEq payment_method (.str "credit_card") || strictEq payment_method (.str "card") then
    cardFields
  else if strictEq payment_method (.str "upi") then ["upi_id"]
  else if strictEq payment_method (.str "razorpay") then razorpayFieldNames
  else []

/-- The message the controller reports for a missing detail field. -/
def detailMessage (f : String) : String :=
  if f = "upi_id" then "UPI ID is required for UPI payments" else requiredMessage f

/-- The eight method fields of a stored `payment_details`, in the order they are written. -/
def methodFields : List String :=
  ["card_holder", "card_number", "expiry_date", "cvv", "upi_id", "razorpay_payment_id",
   "razorpay_order_id", "razorpay_signature"]

/-- The detail fields among `fields` that `payment_details` lacks, in order. -/
def missingDetails (payment_details : JsVal) (fields : List String) : List String :=
  fields.filter fun f => !truthy (readOr payment_details f)

/-- The status code of a response. -/
def statusOf : Response → Nat
  | .fail status _ _ _ => status
  | .json status _ => status
  | .verified _ _ _ => 200

/-- The validation messages a response reports: its `errors` list when it has one, its
single `message` otherwise. -/
def reported : Response → List String
  | .fail _ _ (some errors) _ => errors
  | .fail _ message none _ => [message]
  | _ => []

/-! ## A concrete environment for the examples -/

/-- An environment with stand-in collaborators: the digest of `m` is `sig:m`, the price
lookup finds one row priced 5000, the service reports success. Integers print in decimal;
the examples use no other numbers as identifiers. -/
def demoWorld : World where
  hmacSha256Hex := fun m => .ok ("sig:" ++ m)
  numToString := fun q => toString q.num
  parseFloat := fun v => match v with
    | .num q => .num q
    | _ => .nan
  now := 1700000000000
  bookApartment := fun _ => .json 200 (.obj [("success", .bool true)])
  propertyPriceQuery := fun _ => .ok [.obj [("price", .num 5000)]]
  createMyPayment := fun _ => .ok (.obj [("success", .bool true)])
  fetchPayment := fun _ => .ok (.obj [("status", .str "captured"), ("amount", .num 500000)])
  fetchOrder := fun _ => .ok (.obj [("amount", .num 500000)])

/-- A card payment without `user_id` and without any card detail. -/
def bodyNoUserNoCard : Body :=
  [("property_id", .num 7), ("amount_paid", .num 100), ("payment_method", .str "card"),
   ("payment_details", .obj []), ("status", .str "completed")]

/-- An apartment booking request that carries nothing else. -/
def bodyApartment : Body :=
  [("is_apartment", .bool true), ("unit_id", .num 12)]

/-- A card payment with every top-level field but without a card number. -/
def bodyCardNoNumber : Body :=
  [("user_id", .num 3), ("property_id", .num 7), ("amount_paid", .num 100),
   ("payment_method", .str "card"),
   ("payment_details", .obj [("card_holder", .str "A. Rao"), ("expiry_date", .str "12/30"),
     ("cvv", .str "123")]),
   ("status", .str "completed")]

/-- The collect-everything reading of the validator: the response reports the message of
every missing required top-level field and, for a valid payment method, the message of every
missing required detail field of that method as well. -/
def ReportsEveryMissing (w : World) (body : Body) : Prop :=
  (∀ f ∈ requiredTopLevel, truthy (field body f) = false →
      requiredMessage f ∈ reported (createPayment w body).response) ∧
    (includesMethod (field body "payment_method") = true →
      ∀ F ∈ requiredDetails (field body "payment_method"),
        truthy (detailField body F) = false →
          detailMessage F ∈ reported (createPayment w body).response)

/-- The inline signature check accepts: the digest is computed and is strictly equal to
the request's `razorpay_signature`. -/
def signatureMatches (w : World) (body : Body) : Bool :=
  match w.hmacSha256Hex (signedMessage w (detailField body "razorpay_order_id")
      (detailField body "razorpay_payment_id")) with
  | .ok digest => strictEq (.str digest) (detailField body "razorpay_signature")
  | .error _ => false

/-- The request passes validation: it is not delegated, its six top-level fields are
present, its method is an accepted one, no required detail field of the method is missing
and, for Razorpay, the signature check accepts. -/
def passesValidation (w : World) (body : Body) : Bool :=
  !delegated body && (missingTopLevel body).isEmpty &&
    includesMethod (field body "payment_method") &&
    (missingDetails (field body "payment_details")
      (requiredDetails (field body "payment_method"))).isEmpty &&
    (!strictEq (field body "payment_method") (.str "razorpay") || signatureMatches w body)

/-- Every method field that does not belong to the record's payment method is null. -/
def NonApplicableNull (p : Payment) : Prop :=
  ∀ k ∈ methodFields, k ∉ requiredDetails p.payment_method →
    readOr p.payment_details k = .null

/-- A UPI payment whose `payment_details` also carries a card number. -/
def bodyUpiWithCard : Body :=
  [("user_id", .num 3), ("property_id", .num 7), ("amount_paid", .num 100),
   ("payment_method", .str "upi"),
   ("payment_details", .obj [("upi_id", .str "rao@bank"),
     ("card_number", .str "4111111111111111")]),
   ("status", .str "completed")]

/-- A complete card payment, sent under the alias `card`, that is a deposit without a
total price. -/
def bodyCardDeposit : Body :=
  [("user_id", .num 3), ("property_id", .num 7), ("amount_paid", .num 100),
   ("payment_method", .str "card"),
   ("payment_details", .obj [("card_holder", .str "A. Rao"),
     ("card_number", .str "4111111111111111"), ("expiry_date", .str "12/30"),
     ("cvv", .str "123")]),
   ("status", .str "completed"), ("is_deposit", .bool true)]

/-- A complete Razorpay payment whose signature is the digest `demoWorld` computes. -/
def bodyRazorpay : Body :=
  [("user_id", .num 3), ("property_id", .num 7), ("amount_paid", .num 100),
   ("payment_method", .str "razorpay"),
   ("payment_details", .obj [("razorpay_payment_id", .str "pay_1"),
     ("razorpay_order_id", .str "order_1"),
     ("razorpay_signature", .str "sig:order_1|pay_1")]),
   ("status", .str "completed")]

/-- The three parameters of `verifyRazorpayPayment`, in checking order. -/
def verifyParams : List String :=
  ["razorpay_order_id", "razorpay_payment_id", "razorpay_signature"]

/-- The parameters of `verifyRazorpayPayment` that are absent (falsy), in checking order. -/
def missingParams (body : Body) : List String :=
  verifyParams.filter fun f => !truthy (field body f)

/-- The status of the fetched gateway payment, when the fetch succeeds and yields an
object to read it from. -/
def fetchedStatus (w : World) (body : Body) : Option JsVal :=
  match w.fetchPayment (field body "razorpay_payment_id") with
  | .ok paymentDetails =>
    match getProp paymentDetails "status" with
    | .ok status => some status
    | .error _ => none
  | .error _ => none

/-- The status is `authorized` or `captured`. -/
def acceptedStatus (status : JsVal) : Bool :=
  strictEq status (.str "authorized") || strictEq status (.str "captured")

/-- The environment `demoWorld` with the order fetch failing. -/
def demoWorldOrderDown : World :=
  { demoWorld with fetchOrder := fun _ => .error "ECONNRESET" }

/-- A verification request carrying the digest `demoWorld` computes. -/
def bodyVerify : Body :=
  [("razorpay_order_id", .str "order_1"), ("razorpay_payment_id", .str "pay_1"),
   ("razorpay_signature", .str "sig:order_1|pay_1")]

/-- A verification request without payment id and without signature. -/
def bodyVerifyOrderOnly : Body :=
  [("razorpay_order_id", .str "order_1")]

/-! ## Vocabulary for the signed text -/

/-- A verification request for an order id, a payment id and a signature. -/
def verifyBody (order_id payment_id signature : String) : Body :=
  [("razorpay_order_id", .str order_id), ("razorpay_payment_id", .str payment_id),
   ("razorpay_signature", .str signature)]

/-- A Razorpay payment request for an order id, a payment id and a signature; `rest` holds
the other fields of the body. -/
def razorpayBody (rest : Body) (order_id payment_id signature : String) : Body :=
  ("payment_method", .str "razorpay") ::
    ("payment_details", .obj [("razorpay_payment_id", .str payment_id),
      ("razorpay_order_id", .str order_id), ("razorpay_signature", .str signature)]) :: rest

/-- The handler `verifyRazorpayPayment` accepts the signature: it goes on to fetch the
payment from the gateway. -/
def verifyAccepts (w : World) (body : Body) : Bool :=
  (verifyRazorpayPayment w body).calls.any fun c =>
    match c with
    | .fetchPayment _ => true
    | _ => false

/-- The handler `createPayment` accepts the request: a payment is handed to
`createMyPayment`. -/
def createAccepts (w : World) (body : Body) : Bool :=
  !(persisted (createPayment w body)).isEmpty

/-- The texts both handlers pass to the HMAC primitive, in order. -/
def signedTexts (o : Outcome) : List String :=
  o.calls.filterMap fun c =>
    match c with
    | .hmac message => some message
    | _ => none

/-! ## Numbers -/

/-- The value a host function reads from a string or a date: a rational, or `none` when
there is none (`NaN`). -/
abbrev JsNum := Option ℚ

/-- The difference `a - b` of two numbers. -/
def numSub : JsNum → JsNum → JsNum
  | some x, some y => some (x - y)
  | _, _ => none

/-- A JavaScript number: a double as its exact rational value, `NaN`, or an infinity.
The sign of zero is not kept. -/
inductive JsNumber where
  | finite (q : ℚ)
  | nan
  | infinity (negative : Bool)

/-- Rounding to the nearest integer, a tie going to the even one. -/
def roundHalfEven (x : ℚ) : ℤ :=
  if x - ⌊x⌋ < 1 / 2 then ⌊x⌋
  else if 1 / 2 < x - ⌊x⌋ then ⌊x⌋ + 1
  else if ⌊x⌋ % 2 = 0 then ⌊x⌋
  else ⌊x⌋ + 1

/-- The spacing of the doubles around a non-negative magnitude `a`: 53 significant bits,
and the exponent not below -1022 (the subnormal range). -/
def ulp (a : ℚ) : ℚ :=
  2 ^ (max (Int.log 2 a) (-1022) - 52)

/-- The double nearest to the rational `q` (binary64, round to nearest, ties to even): an
infinity when the rounded magnitude reaches `2 ^ 1024`. -/
def roundDouble (q : ℚ) : JsNumber :=
  let r : ℚ := (roundHalfEven (|q| / ulp |q|) : ℚ) * ulp |q|
  if (2 : ℚ) ^ (1024 : ℤ) ≤ r then .infinity (decide (q < 0))
  else .finite (if q < 0 then -r else r)

/-- The conversion ToNumber that arithmetic applies to its operands. A number literal is
read as the nearest double. The empty string converts to 0; `stringToNumber` is the host's
reading of any other string: the value of its numeric literal, or none. A plain object
converts to `NaN`. -/
def toNumber (stringToNumber : String → JsNum) : JsVal → JsNumber
  | .undefined => .nan
  | .null => .finite 0
  | .bool true => .finite 1
  | .bool false => .finite 0
  | .num q => roundDouble q
  | .nan => .nan
  | .str s =>
    if s = "" then .finite 0
    else
      match stringToNumber s with
      | some q => roundDouble q
      | none => .nan
  | .obj _ => .nan
  | .inf negative => .infinity negative

/-- A number as a value. -/
def ofNumber : JsNumber → JsVal
  | .finite q => .num q
  | .nan => .nan
  | .infinity negative => .inf negative

/-- The product `a * b` of doubles. -/
def floatMul : JsNumber → JsNumber → JsNumber
  | .finite x, .finite y => roundDouble (x * y)
  | .nan, _ => .nan
  | _, .nan => .nan
  | .infinity a, .infinity b => .infinity (a != b)
  | .infinity a, .finite y => if y = 0 then .nan else .infinity (a != decide (y < 0))
  | .finite x, .infinity b => if x = 0 then .nan else .infinity (b != decide (x < 0))

/-- The difference `a - b` of doubles. -/
def floatSub : JsNumber → JsNumber → JsNumber
  | .finite x, .finite y => roundDouble (x - y)
  | .nan, _ => .nan
  | _, .nan => .nan
  | .infinity a, .infinity b => if a = b then .nan else .infinity a
  | .infinity a, .finite _ => .infinity a
  | .finite _, .infinity b => .infinity (!b)

/-- The quotient `a / b` of doubles. The sign of zero is not kept: a non-zero number
divided by zero gives the infinity of the dividend's sign. The controller divides only
under the guard `price > 0`. -/
def floatDiv : JsNumber → JsNumber → JsNumber
  | .finite x, .finite y =>
    if y = 0 then (if x = 0 then .nan else .infinity (decide (x < 0)))
    else roundDouble (x / y)
  | .nan, _ => .nan
  | _, .nan => .nan
  | .infinity _, .infinity _ => .nan
  | .infinity a, .finite y => .infinity (a != decide (y < 0))
  | .finite _, .infinity _ => .finite 0

/-- The function `Math.round`: the nearest integer, a tie going upward. -/
def mathRound : JsNumber → JsNumber
  | .finite q => .finite ((⌊q + 1 / 2⌋ : ℤ) : ℚ)
  | .nan => .nan
  | .infinity negative => .infinity negative

/-! ## createRazorpayOrder -/

/-- The `options` object passed to `razorpay.orders.create`. -/
structure OrderOptions where
  amount : JsNumber
  currency : JsVal
  receipt : String
  notes_user_id : String
  notes_property_id : String
  notes_payment_type : String

/-- The environment of one order request. -/
structure OrderWorld where
  /-- The host's reading of a string as a number. -/
  stringToNumber : String → JsNum
  /-- Number-to-string conversion of the host. -/
  numToString : ℚ → String
  /-- The value of `Date.now()`. -/
  now : Nat
  /-- The response `apartmentController.createApartmentRazorpayOrder(req, res)` writes. -/
  createApartmentRazorpayOrder : Body → Response
  /-- Result of `razorpay.orders.create`. -/
  ordersCreate : OrderOptions → Except String JsVal

/-- What `createRazorpayOrder` does: its response, whether it forwarded the request to the
apartment controller, and the options of the orders it asked the gateway to create. -/
structure OrderOutcome where
  response : Response
  forwarded : Bool
  orders : List OrderOptions

/-- The response body built from the created order. -/
def orderCreated (order : JsVal) : Except String Response := do
  let id ← getProp order "id"
  let amount ← getProp order "amount"
  let currency ← getProp order "currency"
  return .json 200 (.obj [("success", .bool true), ("order_id", id), ("amount", amount),
    ("currency", currency)])

/-- The handler `createRazorpayOrder`. The dynamic import of the apartment controller is
taken to succeed. Identifiers are converted with `toString()`, which agrees with the
template conversion on strings, numbers, booleans and plain objects. -/
def createRazorpayOrder (w : OrderWorld) (body : Body) : OrderOutcome :=
  let amount := field body "amount"
  let currency := field body "currency"
  let user_id := field body "user_id"
  let property_id := field body "property_id"
  let is_deposit := field body "is_deposit"
  let is_apartment := field body "is_apartment"
  let unit_id := field body "unit_id"
  if truthy is_apartment && truthy unit_id then
    ⟨w.createApartmentRazorpayOrder body, true, []⟩
  else if !truthy amount || !truthy currency || !truthy user_id || !truthy property_id then
    ⟨.fail 400 "Amount, currency, user_id, and property_id are required" none none, false, []⟩
  else
    let paymentType := if truthy is_deposit then "deposit" else "full"
    let options : OrderOptions :=
      { amount := mathRound (floatMul (toNumber w.stringToNumber amount) (.finite 100))
        currency := if truthy currency then currency else .str "INR"
        receipt := "prop_" ++ paymentType ++ "_" ++ toStr w.numToString user_id ++ "_" ++
          toStr w.numToString property_id ++ "_" ++ w.numToString w.now
        notes_user_id := toStr w.numToString user_id
        notes_property_id := toStr w.numToString property_id
        notes_payment_type := paymentType }
    match w.ordersCreate options with
    | .error e =>
      ⟨.fail 500 "Server error while creating Razorpay order" none (some e), false, [options]⟩
    | .ok order =>
      match orderCreated order with
      | .error e =>
        ⟨.fail 500 "Server error while creating Razorpay order" none (some e), false,
          [options]⟩
      | .ok response => ⟨response, false, [options]⟩

/-- The required-field check of `createRazorpayOrder` passes. -/
def orderFieldsPresent (body : Body) : Bool :=
  truthy (field body "amount") && truthy (field body "currency") &&
    truthy (field body "user_id") && truthy (field body "property_id")

/-- An environment for order requests: decimal strings are not read, the gateway echoes
the options as the created order. -/
def demoOrderWorld : OrderWorld where
  stringToNumber := fun _ => none
  numToString := fun q => toString q.num
  now := 1700000000000
  createApartmentRazorpayOrder := fun _ => .json 200 (.obj [("success", .bool true)])
  ordersCreate := fun o =>
    .ok (.obj [("id", .str "order_1"), ("amount", ofNumber o.amount),
      ("currency", o.currency)])

/-- An order request for the amount 1.125. -/
def bodyOrder : Body :=
  [("amount", .num (9 / 8)), ("currency", .str "INR"), ("user_id", .num 3),
   ("property_id", .num 7)]

/-- An order request whose amount is an empty object. -/
def bodyOrderObjectAmount : Body :=
  [("amount", .obj []), ("currency", .str "INR"), ("user_id", .num 3),
   ("property_id", .num 7)]

/-- An order request for the integer amount 360287970189641. -/
def bodyOrderLargeAmount : Body :=
  [("amount", .num 360287970189641), ("currency", .str "INR"), ("user_id", .num 3),
   ("property_id", .num 7)]

/-- The amounts of the orders sent to the gateway. -/
def sentAmounts (o : OrderOutcome) : List JsNumber :=
  o.orders.map fun options => options.amount

/-- The order amount read in exact arithmetic: the one order sent carries an integer `n`,
and when the amount of the request is the number `q`, `n` is the integer nearest to
`q * 100`, a tie going upward. -/
def SendsNearestInteger (w : OrderWorld) (body : Body) : Prop :=
  ∃ n : ℤ, sentAmounts (createRazorpayOrder w body) = [.finite (n : ℚ)] ∧
    ∀ q : ℚ, field body "amount" = .num q →
      q * 100 - 1 / 2 < (n : ℚ) ∧ (n : ℚ) ≤ q * 100 + 1 / 2

/-! ## Listing handlers -/

/-- The object a payment service function resolves to: its `success` flag, its `payments`
array (`none` when the field is absent) and its remaining fields. -/
structure ServiceResult where
  success : JsVal
  payments : Option (List JsVal)
  other : Body

/-- What a listing handler writes. -/
inductive ListResponse where
  /-- The body `{ success: false, message, error? }`. -/
  | fail (status : Nat) (message : String) (error : Option String)
  /-- The body `{ success: true, message?, payments }`. -/
  | payments (status : Nat) (message : Option String) (payments : List JsVal)
  /-- The service's own result sent as the body. -/
  | result (status : Nat) (result : ServiceResult)

/-- The environment of one listing request. -/
structure ListWorld where
  /-- The time value of `new Date(v)`, `none` for an invalid date. -/
  dateValue : JsVal → JsNum
  /-- Rows of the property-joined payments of a user. -/
  propertyPaymentsQuery : JsVal → Except String (List JsVal)
  /-- Rows of the apartment-joined payments of a user. -/
  apartmentPaymentsQuery : JsVal → Except String (List JsVal)
  /-- Result of `paymentService.getUserPayments`. -/
  getUserPayments : JsVal → Except String ServiceResult
  /-- Result of `paymentService.getAllPayments`. -/
  getAllPayments : Except String ServiceResult

/-- The time value of `new Date(row.payment_date)`. -/
def paymentTime (w : ListWorld) (row : JsVal) : JsNum :=
  w.dateValue (readOr row "payment_date")

/-- The comparator passed to `sort`: the time of `b` minus the time of `a`. A `NaN` result
counts as zero, as `sort` takes it. -/
def sortCompare (w : ListWorld) (a b : JsVal) : ℚ :=
  match numSub (paymentTime w b) (paymentTime w a) with
  | some v => v
  | none => 0

/-- The call `allPayments.sort(comparator)`: a stable sort, which leaves `a` before `b`
unless the comparator is positive on them. -/
def sortPayments (w : ListWorld) (allPayments : List JsVal) : List JsVal :=
  allPayments.insertionSort fun a b => sortCompare w a b ≤ 0

/-- The handler `getAllUserPaymentsController`. -/
def getAllUserPaymentsController (w : ListWorld) (user_id : JsVal) : ListResponse :=
  if !truthy user_id then
    .fail 400 "User ID is required" none
  else
    match w.propertyPaymentsQuery user_id with
    | .error e => .fail 500 "Server error while fetching payment history" (some e)
    | .ok propertyPayments =>
      match w.apartmentPaymentsQuery user_id with
      | .error e => .fail 500 "Server error while fetching payment history" (some e)
      | .ok apartmentPayments =>
        let allPayments := propertyPayments ++ apartmentPayments
        .payments 200 none (sortPayments w allPayments)

/-- The test `!result.payments || result.payments.length === 0`. -/
def noPayments (result : ServiceResult) : Bool :=
  match result.payments with
  | none => true
  | some payments => payments.length == 0

/-- The handler `getUserPaymentHistory`. -/
def getUserPaymentHistory (w : ListWorld) (user_id : JsVal) : ListResponse :=
  if !truthy user_id then
    .fail 400 "User ID is required" none
  else
    match w.getUserPayments user_id with
    | .error e => .fail 500 "Server error while fetching payment history" (some e)
    | .ok result =>
      if truthy result.success && noPayments result then
        .payments 200 (some "No payments found for this user") []
      else
        .result (if truthy result.success then 200 else 400) result

/-- The handler `getAllPaymentsController`. -/
def getAllPaymentsController (w : ListWorld) : ListResponse :=
  match w.getAllPayments with
  | .error _ => .fail 500 "Server error" none
  | .ok result =>
    if truthy result.success then .result 200 result
    else .result 400 result

/-- The status code of a listing response. -/
def listStatus : ListResponse → Nat
  | .fail status _ _ => status
  | .payments status _ _ => status
  | .result status _ => status

/-- The `payments` field of a listing response body, `none` when the body has none. -/
def paymentsOf : ListResponse → Option (List JsVal)
  | .fail _ _ _ => none
  | .payments _ _ payments => some payments
  | .result _ result => result.payments

/-- The rows all carry a valid payment date. -/
def ValidDates (w : ListWorld) (rows : List JsVal) : Prop :=
  ∀ row ∈ rows, ∃ t, paymentTime w row = some t

/-- The first row is at least as recent as the second, both dates being valid. -/
def NotOlder (w : ListWorld) (a b : JsVal) : Prop :=
  ∃ ta tb, paymentTime w a = some ta ∧ paymentTime w b = some tb ∧ tb ≤ ta

/-- A success with no payments is answered 200 with an empty `payments` list. -/
def NormalizesEmpty (response : ListResponse) : Prop :=
  listStatus response = 200 ∧ paymentsOf response = some []

/-- A payment row dated `t`, of the given type. -/
def rowDated (payment_type : String) (t : ℚ) : JsVal :=
  .obj [("payment_date", .num t), ("payment_type", .str payment_type)]

/-- A listing environment: dates are epoch milliseconds; the user has two property
payments dated 100 and 300 and one apartment payment dated 200; the services report
success without a `payments` field. -/
def demoListWorld : ListWorld where
  dateValue := fun v => match v with
    | .num q => some q
    | _ => none
  propertyPaymentsQuery := fun _ => .ok [rowDated "property" 100, rowDated "property" 300]
  apartmentPaymentsQuery := fun _ => .ok [rowDated "apartment" 200]
  getUserPayments := fun _ => .ok ⟨.bool true, none, []⟩
  getAllPayments := .ok ⟨.bool true, none, []⟩

/-! ## generateInvoice -/

/-- The environment of one invoice request. -/
structure InvoiceWorld where
  /-- The host's reading of a string as a number. -/
  stringToNumber : String → JsNum
  /-- Rows of the first lookup: the payment joined with its property and user. -/
  propertyPaymentQuery : JsVal → Except String (List JsVal)
  /-- Rows of the second lookup: the payment joined with its apartment booking. -/
  apartmentPaymentQuery : JsVal → Except String (List JsVal)
  /-- Result of `paymentService.getPyamentData(user_id, property_id)`. -/
  getPyamentData : JsVal → JsVal → Except String JsVal

/-- The branch of `generateInvoice` that builds the invoice. -/
inductive InvoiceBranch where
  | property
  | apartment

/-- What `generateInvoice` does: its response and the branch that built the invoice, if
one was built. -/
structure InvoiceOutcome where
  response : Response
  branch : Option InvoiceBranch

/-- The own fields an object spread `...v` copies. A primitive number or boolean has none;
a string value, which no row or summary is, would add its characters and is not
modelled. -/
def spreadOf : JsVal → Body
  | .obj fields => fields
  | _ => []

/-- The expression `v || 0`. -/
def orZero (v : JsVal) : JsVal :=
  if truthy v then v else .num 0

/-- The test `v > 0`. -/
def greaterThanZero (stringToNumber : String → JsNum) (v : JsVal) : Bool :=
  match toNumber stringToNumber v with
  | .finite q => decide (0 < q)
  | .nan => false
  | .infinity negative => !negative

/-- The two lookups of `generateInvoice`: the property lookup, and the apartment lookup
when the first finds no row. -/
def lookupPayment (w : InvoiceWorld) (payment_id : JsVal) : Except String (List JsVal) :=
  match w.propertyPaymentQuery payment_id with
  | .error e => .error e
  | .ok propertyPayment =>
    if propertyPayment.length == 0 then w.apartmentPaymentQuery payment_id
    else .ok propertyPayment

/-- The summary computed inline when the service gives none. -/
def inlineSummary (w : InvoiceWorld) (payment : JsVal) : Body :=
  let price := readOr payment "price"
  let total_price := readOr payment "total_price"
  let amount_paid := readOr payment "amount_paid"
  [("full_property_price", orZero price),
   ("deposit_amount", orZero total_price),
   ("total_paid", orZero amount_paid),
   ("pending_amount",
     ofNumber (floatSub (toNumber w.stringToNumber (orZero price))
       (toNumber w.stringToNumber (orZero amount_paid)))),
   ("percentage_paid",
     if greaterThanZero w.stringToNumber price then
       ofNumber (mathRound (floatMul
         (floatDiv (toNumber w.stringToNumber amount_paid) (toNumber w.stringToNumber price))
         (.finite 100)))
     else .num 0)]

/-- The invoice of the apartment branch. Later keys of an object literal win, so the
fields written after the spread of the row come first in the association list. -/
def apartmentInvoice (payment : JsVal) : Body :=
  let total_price := readOr payment "total_price"
  let amount_paid := readOr payment "amount_paid"
  [("full_property_price", if truthy total_price then total_price else orZero amount_paid),
   ("deposit_amount", orZero amount_paid),
   ("total_paid", orZero amount_paid),
   ("pending_amount", .num 0),
   ("percentage_paid", .num 100),
   ("unit_details", .obj [
     ("unit_number", readOr payment "unit_number"),
     ("floor_number", readOr payment "floor_number"),
     ("bedrooms", readOr payment "bedrooms"),
     ("bathrooms", readOr payment "bathrooms"),
     ("area", readOr payment "area")])] ++ spreadOf payment

/-- The response that carries an invoice. -/
def invoiceResponse (invoiceData : Body) : Response :=
  .json 200 (.obj [("success", .bool true), ("invoice", .obj invoiceData)])

/-- The handler `generateInvoice`. Every throw inside its `try` block ends in the 500
answer of the `catch`. -/
def generateInvoice (w : InvoiceWorld) (payment_id : JsVal) : InvoiceOutcome :=
  if !truthy payment_id then
    ⟨.fail 400 "Payment ID is required" none none, none⟩
  else
    match lookupPayment w payment_id with
    | .error e => ⟨.fail 500 "Server error while generating invoice" none (some e), none⟩
    | .ok [] => ⟨.fail 404 "Payment not found" none none, none⟩
    | .ok (payment :: _) =>
      match getProp payment "payment_type" with
      | .error e => ⟨.fail 500 "Server error while generating invoice" none (some e), none⟩
      | .ok payment_type =>
        if strictEq payment_type (.str "property") then
          match w.getPyamentData (readOr payment "user_id") (readOr payment "property_id") with
          | .error e =>
            ⟨.fail 500 "Server error while generating invoice" none (some e), some .property⟩
          | .ok paymentData =>
            let payment_summary := readOr paymentData "payment_summary"
            let summary :=
              if truthy payment_summary then spreadOf payment_summary
              else inlineSummary w payment
            ⟨invoiceResponse (summary ++ spreadOf payment), some .property⟩
        else
          ⟨invoiceResponse (apartmentInvoice payment), some .apartment⟩

/-! ## The two lookups of generateInvoice over a database -/

/-- The tables the two lookups read, each a list of rows. -/
structure Db where
  payments : List Body
  properties : List Body
  users : List Body
  apartment_bookings : List Body
  apartments : List Body
  apartment_units : List Body

/-- The database engine's part in the lookups: the truth of a comparison `a = b` (false
when it is unknown, as for NULL) and the value of `CONCAT(first, ' ', last)`. -/
structure Sql where
  eq : JsVal → JsVal → Bool
  concatName : JsVal → JsVal → JsVal

/-- The rows a `LEFT JOIN` attaches to a left row: the rows of `table` whose `key` is equal
to `v`, or one all-NULL row (`none`) when there is no such row. -/
def leftJoinRows (sql : Sql) (table : List Body) (key : String) (v : JsVal) :
    List (Option Body) :=
  match table.filter fun r => sql.eq v (field r key) with
  | [] => [none]
  | r :: rs => (r :: rs).map some

/-- The rows an inner `JOIN` attaches to a left row. -/
def joinRows (sql : Sql) (table : List Body) (key : String) (v : JsVal) : List Body :=
  table.filter fun r => sql.eq v (field r key)

/-- A column of a joined row, NULL for the all-NULL row. -/
def column (r : Option Body) (k : String) : JsVal :=
  match r with
  | some row => field row k
  | none => .null

/-- The first lookup: payments with the given id, left-joined with properties and users.
A selected column overrides a column of `p.*` of the same name. -/
def propertyPaymentRows (sql : Sql) (db : Db) (payment_id : JsVal) : List JsVal :=
  db.payments.flatMap fun p =>
    (leftJoinRows sql db.properties "id" (field p "property_id")).flatMap fun pr =>
      (leftJoinRows sql db.users "id" (field p "user_id")).flatMap fun u =>
        if sql.eq (field p "id") payment_id then
          [.obj ([("property_name", column pr "name"), ("location", column pr "location"),
            ("user_name", sql.concatName (column u "first_name") (column u "last_name")),
            ("email", column u "email"), ("payment_type", .str "property")] ++ p)]
        else []

/-- The second lookup: payments with the given id, joined with their apartment booking,
its apartment, its unit, and the user. -/
def apartmentPaymentRows (sql : Sql) (db : Db) (payment_id : JsVal) : List JsVal :=
  db.payments.flatMap fun p =>
    (joinRows sql db.apartment_bookings "payment_id" (field p "id")).flatMap fun ab =>
      (joinRows sql db.apartments "id" (field ab "apartment_id")).flatMap fun apt =>
        (joinRows sql db.apartment_units "id" (field ab "unit_id")).flatMap fun au =>
          (joinRows sql db.users "id" (field p "user_id")).flatMap fun u =>
            if sql.eq (field p "id") payment_id then
              [.obj ([("property_name", field apt "name"), ("location", field apt "location"),
                ("user_name", sql.concatName (field u "first_name") (field u "last_name")),
                ("email", field u "email"), ("payment_type", .str "apartment"),
                ("booking_id", field ab "id"), ("unit_number", field au "unit_number"),
                ("floor_number", field au "floor_number"), ("bedrooms", field au "bedrooms"),
                ("bathrooms", field au "bathrooms"), ("area", field au "area")] ++ p)]
            else []

/-- The invoice environment whose two lookups run on a database. -/
def dbInvoiceWorld (sql : Sql) (db : Db) (stringToNumber : String → JsNum)
    (getPyamentData : JsVal → JsVal → Except String JsVal) : InvoiceWorld where
  stringToNumber := stringToNumber
  propertyPaymentQuery := fun payment_id => .ok (propertyPaymentRows sql db payment_id)
  apartmentPaymentQuery := fun payment_id => .ok (apartmentPaymentRows sql db payment_id)
  getPyamentData := getPyamentData

/-- A comparison for the examples: numbers and strings are equal to themselves, NULL to
nothing. -/
def demoSql : Sql where
  eq := strictEq
  concatName := fun a b =>
    match a, b with
    | .str x, .str y => .str (x ++ " " ++ y)
    | _, _ => .null

/-- A database with one payment, made by user 5 for the booking of unit 3 of apartment 2. -/
def demoDb : Db where
  payments := [[("id", .str "1"), ("user_id", .num 5), ("property_id", .null),
    ("total_price", .num 900), ("amount_paid", .num 900)]]
  properties := []
  users := [[("id", .num 5), ("first_name", .str "Asha"), ("last_name", .str "Rao"),
    ("email", .str "asha@example.com")]]
  apartment_bookings := [[("id", .num 9), ("payment_id", .str "1"), ("apartment_id", .num 2),
    ("unit_id", .num 3)]]
  apartments := [[("id", .num 2), ("name", .str "Lake View"), ("location", .str "Pune")]]
  apartment_units := [[("id", .num 3), ("unit_number", .str "B-12"), ("floor_number", .num 4),
    ("bedrooms", .num 2), ("bathrooms", .num 1), ("area", .num 85)]]

/-- A database with one payment of 250, made by user 5 on property 7, which is priced
1000. The payments table has the columns the controller writes and reads back
(`total_price`, `amount_paid`, ...); the price is a column of the property. -/
def demoPropertyDb : Db where
  payments := [[("id", .str "1"), ("user_id", .num 5), ("property_id", .num 7),
    ("total_price", .num 1000), ("amount_paid", .num 250)]]
  properties := [[("id", .num 7), ("name", .str "Hill House"), ("location", .str "Pune"),
    ("price", .num 1000)]]
  users := [[("id", .num 5), ("first_name", .str "Asha"), ("last_name", .str "Rao"),
    ("email", .str "asha@example.com")]]
  apartment_bookings := []
  apartments := []
  apartment_units := []

/-! ## Lemmas about the validation stages -/

theorem topLevelErrors_eq (body : Body) :
    topLevelErrors body = (missingTopLevel body).map requiredMessage := by
  simp only [topLevelErrors, missingTopLevel, requiredTopLevel, List.filter]
  cases truthy (field body "user_id") <;> cases truthy (field body "property_id") <;>
    cases truthy (field body "amount_paid") <;> cases truthy (field body "payment_method") <;>
    cases truthy (field body "payment_details") <;> cases truthy (field body "status") <;> rfl

theorem missingTopLevel_count (body : Body) :
    ∀ f ∈ requiredTopLevel,
      ((missingTopLevel body).map requiredMessage).count (requiredMessage f) =
        if truthy (field body f) then 0 else 1 := by
  intro f hf
  simp only [requiredTopLevel, List.mem_cons, List.mem_singleton, List.not_mem_nil,
    or_false] at hf
  simp only [missingTopLevel, requiredTopLevel, List.filter]
  rcases hf with rfl | rfl | rfl | rfl | rfl | rfl <;>
  cases truthy (field body "user_id") <;> cases truthy (field body "property_id") <;>
    cases truthy (field body "amount_paid") <;> cases truthy (field body "payment_method") <;>
    cases truthy (field body "payment_details") <;> cases truthy (field body "status") <;> decide

theorem getProp_of_truthy {v : JsVal} (h : truthy v = true) (k : String) :
    getProp v k = .ok (readOr v k) := by
  cases v <;> simp_all [truthy, getProp, readOr]

theorem createPayment_of_delegated (w : World) (body : Body) (h : delegated body = true) :
    createPayment w body = ⟨w.bookApartment body, [.bookApartment body]⟩ := by
  simp only [delegated] at h
  simp [createPayment, createPaymentTry, h]

theorem createPayment_of_missing (w : World) (body : Body) (hnd : delegated body = false)
    (hmiss : missingTopLevel body ≠ []) :
    createPayment w body =
      ⟨.fail 400 "Validation failed" (some ((missingTopLevel body).map requiredMessage)) none,
        []⟩ := by
  simp only [delegated] at hnd
  have hlen : 0 < (missingTopLevel body).length := List.length_pos.mpr hmiss
  simp [createPayment, createPaymentTry, hnd, topLevelErrors_eq, hlen]

theorem cardChecks_eq {pd : JsVal} (h : truthy pd = true) :
    cardChecks pd =
      .ok (if (missingDetails pd cardFields).length > 0 then
        some (.fail 400 "Card details validation failed"
          (some ((missingDetails pd cardFields).map requiredMessage)) none)
      else none) := by
  simp only [cardChecks, getProp_of_truthy h, missingDetails, cardFields, List.filter, bind,
    Except.bind, pure, Except.pure]
  cases truthy (readOr pd "card_holder") <;> cases truthy (readOr pd "card_number") <;>
    cases truthy (readOr pd "expiry_date") <;> cases truthy (readOr pd "cvv") <;> rfl


theorem strictEq_str_right {v : JsVal} {s : String} :
    strictEq v (.str s) = true ↔ v = .str s := by
  cases v <;> simp [strictEq]

theorem strictEq_str_left {v : JsVal} {s : String} :
    strictEq (.str s) v = true ↔ v = .str s := by
  cases v with
  | str t => simp only [strictEq, beq_iff_eq, JsVal.str.injEq]; exact eq_comm
  | _ => simp [strictEq]

theorem includesMethod_iff {m : JsVal} :
    includesMethod m = true ↔
      m = .str "credit_card" ∨ m = .str "card" ∨ m = .str "upi" ∨ m = .str "razorpay" := by
  simp [includesMethod, validMethods, strictEq_str_left]

theorem missingTopLevel_nil {body : Body} (h : missingTopLevel body = []) :
    ∀ f ∈ requiredTopLevel, truthy (field body f) = true := by
  intro f hf
  have := List.filter_eq_nil_iff.mp h f hf
  simpa using this

theorem upiChecks_eq {pd : JsVal} (h : truthy pd = true) :
    upiChecks pd =
      .ok (if truthy (readOr pd "upi_id") then none
        else some (.fail 400 "UPI ID is required for UPI payments" none none)) := by
  simp only [upiChecks, getProp_of_truthy h, bind, Except.bind, pure, Except.pure]
  cases truthy (readOr pd "upi_id") <;> rfl

theorem razorpayFields_eq {pd : JsVal} (h : truthy pd = true) :
    razorpayFields pd =
      .ok (readOr pd "razorpay_payment_id", readOr pd "razorpay_order_id",
        readOr pd "razorpay_signature") := by
  simp only [razorpayFields, getProp_of_truthy h, bind, Except.bind, pure, Except.pure]

theorem missingDetails_nil {pd : JsVal} {fields : List String}
    (h : missingDetails pd fields = []) : ∀ f ∈ fields, truthy (readOr pd f) = true := by
  intro f hf
  have := List.filter_eq_nil_iff.mp h f hf
  simpa using this

theorem razorpayChecks_missing (w : World) {pd : JsVal} (h : truthy pd = true)
    (hmiss : missingDetails pd razorpayFieldNames ≠ []) :
    razorpayChecks w pd =
      (.ok (some (.fail 400 "Razorpay details validation failed"
        (some ((missingDetails pd razorpayFieldNames).map requiredMessage)) none)), []) := by
  revert hmiss
  simp only [razorpayChecks, razorpayFields_eq h, missingDetails, razorpayFieldNames, List.filter]
  cases truthy (readOr pd "razorpay_payment_id") <;>
    cases truthy (readOr pd "razorpay_order_id") <;>
    cases truthy (readOr pd "razorpay_signature") <;> intro hmiss <;>
    first
      | rfl
      | exact absurd rfl hmiss

theorem razorpayChecks_complete (w : World) {pd : JsVal} (h : truthy pd = true)
    (hmiss : missingDetails pd razorpayFieldNames = []) :
    razorpayChecks w pd =
      match w.hmacSha256Hex
          (signedMessage w (readOr pd "razorpay_order_id") (readOr pd "razorpay_payment_id")) with
      | .error e =>
        (.ok (some (.fail 400 "Error verifying signature" none (some e))),
          [.hmac (signedMessage w (readOr pd "razorpay_order_id")
            (readOr pd "razorpay_payment_id"))])
      | .ok digest =>
        if strictEq (.str digest) (readOr pd "razorpay_signature") then
          (.ok none, [.hmac (signedMessage w (readOr pd "razorpay_order_id")
            (readOr pd "razorpay_payment_id"))])
        else
          (.ok (some (.fail 400 "Invalid Razorpay signature" none none)),
            [.hmac (signedMessage w (readOr pd "razorpay_order_id")
              (readOr pd "razorpay_payment_id"))]) := by
  have h1 := missingDetails_nil hmiss "razorpay_payment_id" (by decide)
  have h2 := missingDetails_nil hmiss "razorpay_order_id" (by decide)
  have h3 := missingDetails_nil hmiss "razorpay_signature" (by decide)
  simp only [razorpayChecks, razorpayFields_eq h, h1, h2, h3]
  cases w.hmacSha256Hex
    (signedMessage w (readOr pd "razorpay_order_id") (readOr pd "razorpay_payment_id")) with
  | error e => rfl
  | ok d =>
    by_cases hs : strictEq (.str d) (readOr pd "razorpay_signature") = true <;> simp [hs]

theorem sanitizedPaymentDetails_eq {pd : JsVal} (h : truthy pd = true) :
    sanitizedPaymentDetails pd =
      .ok (.obj (methodFields.map fun k => (k, orNull (readOr pd k)))) := by
  simp only [sanitizedPaymentDetails, getProp_of_truthy h, bind, Except.bind, pure, Except.pure]
  rfl

theorem persistPayment_calls (w : World) (body : Body)
    (h : truthy (field body "payment_details") = true) :
    (persistPayment w body).2 =
      (finalTotalPrice w (field body "total_price") (field body "is_deposit")
          (field body "property_id")).2 ++
        [.createMyPayment (newPayment w body
          (.obj (methodFields.map fun k => (k, orNull (detailField body k))))
          (finalTotalPrice w (field body "total_price") (field body "is_deposit")
            (field body "property_id")).1)] := by
  simp only [persistPayment, sanitizedPaymentDetails_eq h, detailField]
  split
  · rfl
  · split <;> rfl

theorem createPaymentTry_of_top (w : World) (body : Body) (hnd : delegated body = false)
    (htop : missingTopLevel body = [])
    (hm : includesMethod (field body "payment_method") = true) :
    createPaymentTry w body =
      match detailChecks w (field body "payment_method") (field body "payment_details") with
      | (.error e, calls) => (.error e, calls)
      | (.ok (some response), calls) => (.ok response, calls)
      | (.ok none, calls) =>
        ((persistPayment w body).1, calls ++ (persistPayment w body).2) := by
  simp only [delegated] at hnd
  simp [createPaymentTry, hnd, topLevelErrors_eq, htop, hm]

theorem createPayment_of_detail_response (w : World) (body : Body)
    (hnd : delegated body = false) (htop : missingTopLevel body = [])
    (hm : includesMethod (field body "payment_method") = true) (r : Response)
    (calls : List Call)
    (hd : detailChecks w (field body "payment_method") (field body "payment_details") =
      (.ok (some r), calls)) :
    createPayment w body = ⟨r, calls⟩ := by
  simp [createPayment, createPaymentTry_of_top w body hnd htop hm, hd]

theorem createPayment_calls_of_detail_pass (w : World) (body : Body)
    (hnd : delegated body = false) (htop : missingTopLevel body = [])
    (hm : includesMethod (field body "payment_method") = true) (calls : List Call)
    (hd : detailChecks w (field body "payment_method") (field body "payment_details") =
      (.ok none, calls)) :
    (createPayment w body).calls = calls ++ (persistPayment w body).2 := by
  simp only [createPayment, createPaymentTry_of_top w body hnd htop hm, hd]
  cases (persistPayment w body).1 <;> rfl


theorem requiredDetails_cases {m : JsVal} {F : String} (hF : F ∈ requiredDetails m) :
    ((m = .str "credit_card" ∨ m = .str "card") ∧ F ∈ cardFields) ∨
      (m = .str "upi" ∧ F = "upi_id") ∨ (m = .str "razorpay" ∧ F ∈ razorpayFieldNames) := by
  unfold requiredDetails at hF
  split at hF
  · rename_i h
    simp only [Bool.or_eq_true, strictEq_str_right] at h
    exact Or.inl ⟨h, hF⟩
  · split at hF
    · rename_i h
      exact Or.inr (Or.inl ⟨strictEq_str_right.mp h, by simpa using hF⟩)
    · split at hF
      · rename_i h
        exact Or.inr (Or.inr ⟨strictEq_str_right.mp h, hF⟩)
      · simp at hF

theorem count_missing_card {pd : JsVal} {F : String} (hF : F ∈ cardFields)
    (hmiss : truthy (readOr pd F) = false) :
    ((missingDetails pd cardFields).map requiredMessage).count (detailMessage F) = 1 := by
  simp only [cardFields, List.mem_cons, List.mem_singleton, List.not_mem_nil, or_false] at hF
  rcases hF with rfl | rfl | rfl | rfl <;>
  simp only [missingDetails, cardFields, List.filter, hmiss] <;>
  cases truthy (readOr pd "card_holder") <;> cases truthy (readOr pd "card_number") <;>
    cases truthy (readOr pd "expiry_date") <;> cases truthy (readOr pd "cvv") <;> decide

theorem count_missing_razorpay {pd : JsVal} {F : String} (hF : F ∈ razorpayFieldNames)
    (hmiss : truthy (readOr pd F) = false) :
    ((missingDetails pd razorpayFieldNames).map requiredMessage).count (detailMessage F) = 1 := by
  simp only [razorpayFieldNames, List.mem_cons, List.mem_singleton, List.not_mem_nil,
    or_false] at hF
  rcases hF with rfl | rfl | rfl <;>
  simp only [missingDetails, razorpayFieldNames, List.filter, hmiss] <;>
  cases truthy (readOr pd "razorpay_payment_id") <;>
    cases truthy (readOr pd "razorpay_order_id") <;>
    cases truthy (readOr pd "razorpay_signature") <;> decide

theorem missingDetails_ne_nil {pd : JsVal} {fields : List String} {F : String}
    (hF : F ∈ fields) (hmiss : truthy (readOr pd F) = false) :
    missingDetails pd fields ≠ [] := by
  intro h
  have := missingDetails_nil h F hF
  simp [hmiss] at this

theorem detailChecks_card (w : World) {m pd : JsVal}
    (hm : m = .str "credit_card" ∨ m = .str "card") :
    detailChecks w m pd = (cardChecks pd, []) := by
  rcases hm with rfl | rfl <;> simp [detailChecks, strictEq]

theorem detailChecks_upi (w : World) {pd : JsVal} :
    detailChecks w (.str "upi") pd = (upiChecks pd, []) := by
  simp [detailChecks, strictEq]

theorem detailChecks_razorpay (w : World) {pd : JsVal} :
    detailChecks w (.str "razorpay") pd = razorpayChecks w pd := by
  simp [detailChecks, strictEq]

/-- A missing detail field of the request's method: the response is a 400 that reports the
field's message exactly once, and no collaborator is called. -/
theorem createPayment_detail_missing (w : World) (body : Body)
    (hnd : delegated body = false) (htop : missingTopLevel body = [])
    (F : String) (hF : F ∈ requiredDetails (field body "payment_method"))
    (hmissing : truthy (detailField body F) = false) :
    statusOf (createPayment w body).response = 400
      ∧ (reported (createPayment w body).response).count (detailMessage F) = 1
      ∧ (createPayment w body).calls = [] := by
  have hpd : truthy (field body "payment_details") = true :=
    missingTopLevel_nil htop "payment_details" (by decide)
  rcases requiredDetails_cases hF with ⟨hm, hFc⟩ | ⟨hm, rfl⟩ | ⟨hm, hFr⟩
  · have hinc : includesMethod (field body "payment_method") = true :=
      includesMethod_iff.mpr (by rcases hm with h | h <;> simp [h])
    have hne : 0 < (missingDetails (field body "payment_details") cardFields).length :=
      List.length_pos.mpr (missingDetails_ne_nil hFc hmissing)
    have hd : detailChecks w (field body "payment_method") (field body "payment_details") =
        (.ok (some (.fail 400 "Card details validation failed"
          (some ((missingDetails (field body "payment_details") cardFields).map
            requiredMessage)) none)), []) := by
      rw [detailChecks_card w hm, cardChecks_eq hpd]
      simp [hne]
    rw [createPayment_of_detail_response w body hnd htop hinc _ _ hd]
    exact ⟨rfl, count_missing_card hFc hmissing, rfl⟩
  · have hinc : includesMethod (field body "payment_method") = true :=
      includesMethod_iff.mpr (by simp [hm])
    have hu : truthy (readOr (field body "payment_details") "upi_id") = false := hmissing
    have hd : detailChecks w (field body "payment_method") (field body "payment_details") =
        (.ok (some (.fail 400 "UPI ID is required for UPI payments" none none)), []) := by
      rw [hm, detailChecks_upi, upiChecks_eq hpd]
      simp [hu]
    rw [createPayment_of_detail_response w body hnd htop hinc _ _ hd]
    exact ⟨rfl, by decide, rfl⟩
  · have hinc : includesMethod (field body "payment_method") = true :=
      includesMethod_iff.mpr (by simp [hm])
    have hd : detailChecks w (field body "payment_method") (field body "payment_details") =
        (.ok (some (.fail 400 "Razorpay details validation failed"
          (some ((missingDetails (field body "payment_details") razorpayFieldNames).map
            requiredMessage)) none)), []) := by
      rw [hm, detailChecks_razorpay,
        razorpayChecks_missing w hpd (missingDetails_ne_nil hFr hmissing)]
    rw [createPayment_of_detail_response w body hnd htop hinc _ _ hd]
    exact ⟨rfl, count_missing_razorpay hFr hmissing, rfl⟩


theorem persisted_of_calls_nil {o : Outcome} (h : o.calls = []) : persisted o = [] := by
  simp [persisted, h]

theorem orNull_of_truthy {v : JsVal} (h : truthy v = true) : orNull v = v := by
  simp [orNull, h]

theorem orNull_of_falsy {v : JsVal} (h : truthy v = false) : orNull v = .null := by
  simp [orNull, h]

theorem finalTotalPrice_calls (w : World) (tp dep pid : JsVal) :
    (finalTotalPrice w tp dep pid).2 =
      if truthy dep && !truthy tp then [.propertyPriceQuery pid] else [] := by
  by_cases h : (truthy dep && !truthy tp) = true
  · simp only [finalTotalPrice, h, if_true]
    cases w.propertyPriceQuery pid with
    | error e => rfl
    | ok rows =>
      cases rows with
      | nil => rfl
      | cons row rest =>
        simp only
        cases getProp row "price" with
        | error e => rfl
        | ok price => simp only; split <;> rfl
  · simp [finalTotalPrice, h]

theorem finalTotalPrice_no_lookup (w : World) (tp dep pid : JsVal)
    (h : (truthy dep && !truthy tp) = false) : (finalTotalPrice w tp dep pid).1 = tp := by
  simp [finalTotalPrice, h]

theorem finalTotalPrice_error (w : World) (tp dep pid : JsVal) (e : String)
    (hq : w.propertyPriceQuery pid = .error e) : (finalTotalPrice w tp dep pid).1 = tp := by
  by_cases h : (truthy dep && !truthy tp) = true
  · simp only [finalTotalPrice, h, if_true, hq]
  · simp [finalTotalPrice, h]

theorem finalTotalPrice_no_row (w : World) (tp dep pid : JsVal)
    (hq : w.propertyPriceQuery pid = .ok []) : (finalTotalPrice w tp dep pid).1 = tp := by
  by_cases h : (truthy dep && !truthy tp) = true
  · simp only [finalTotalPrice, h, if_true, hq]
  · simp [finalTotalPrice, h]

theorem finalTotalPrice_no_price (w : World) (tp dep pid row : JsVal) (rows : List JsVal)
    (hq : w.propertyPriceQuery pid = .ok (row :: rows))
    (hp : truthy (readOr row "price") = false) : (finalTotalPrice w tp dep pid).1 = tp := by
  by_cases h : (truthy dep && !truthy tp) = true
  · simp only [finalTotalPrice, h, if_true, hq]
    unfold readOr at hp
    cases hg : getProp row "price" with
    | error e => rfl
    | ok price =>
      rw [hg] at hp
      simp only at hp
      simp [hp]
  · simp [finalTotalPrice, h]

theorem finalTotalPrice_price (w : World) (tp dep pid row : JsVal) (rows : List JsVal)
    (h : (truthy dep && !truthy tp) = true)
    (hq : w.propertyPriceQuery pid = .ok (row :: rows))
    (hp : truthy (readOr row "price") = true) :
    (finalTotalPrice w tp dep pid).1 = w.parseFloat (readOr row "price") := by
  simp only [finalTotalPrice, h, if_true, hq]
  unfold readOr at hp ⊢
  cases hg : getProp row "price" with
  | error e =>
    rw [hg] at hp
    simp [truthy] at hp
  | ok price =>
    rw [hg] at hp
    simp only at hp
    simp [hp]

theorem passesValidation_parts {w : World} {body : Body}
    (h : passesValidation w body = true) :
    delegated body = false ∧ missingTopLevel body = [] ∧
      includesMethod (field body "payment_method") = true ∧
      missingDetails (field body "payment_details")
        (requiredDetails (field body "payment_method")) = [] ∧
      (field body "payment_method" = .str "razorpay" → signatureMatches w body = true) := by
  simp only [passesValidation, Bool.and_eq_true, Bool.or_eq_true, Bool.not_eq_true',
    List.isEmpty_iff, strictEq_str_right] at h
  obtain ⟨⟨⟨⟨h1, h2⟩, h3⟩, h4⟩, h5⟩ := h
  refine ⟨h1, h2, h3, h4, ?_⟩
  intro hm
  rcases h5 with h5 | h5
  · have : strictEq (field body "payment_method") (.str "razorpay") = true :=
      strictEq_str_right.mpr hm
    rw [this] at h5
    cases h5
  · exact h5

theorem detailChecks_of_passes {w : World} {body : Body}
    (h : passesValidation w body = true) :
    ∃ pre, (pre = [] ∨ ∃ msg, pre = [Call.hmac msg]) ∧
      detailChecks w (field body "payment_method") (field body "payment_details") =
        (.ok none, pre) := by
  obtain ⟨_, htop, hinc, hmd, hsig⟩ := passesValidation_parts h
  have hpd : truthy (field body "payment_details") = true :=
    missingTopLevel_nil htop "payment_details" (by decide)
  rcases includesMethod_iff.mp hinc with hm | hm | hm | hm
  · rw [hm] at hmd
    have hmd2 : missingDetails (field body "payment_details") cardFields = [] := hmd
    refine ⟨[], Or.inl rfl, ?_⟩
    rw [detailChecks_card w (Or.inl hm), cardChecks_eq hpd, hmd2]
    rfl
  · rw [hm] at hmd
    have hmd2 : missingDetails (field body "payment_details") cardFields = [] := hmd
    refine ⟨[], Or.inl rfl, ?_⟩
    rw [detailChecks_card w (Or.inr hm), cardChecks_eq hpd, hmd2]
    rfl
  · rw [hm] at hmd
    have hu := missingDetails_nil hmd "upi_id" (by decide)
    refine ⟨[], Or.inl rfl, ?_⟩
    rw [hm, detailChecks_upi, upiChecks_eq hpd, hu]
    rfl
  · rw [hm] at hmd
    have hmd2 : missingDetails (field body "payment_details") razorpayFieldNames = [] := hmd
    have hs := hsig hm
    simp only [signatureMatches, detailField] at hs
    refine ⟨[Call.hmac (signedMessage w
        (readOr (field body "payment_details") "razorpay_order_id")
        (readOr (field body "payment_details") "razorpay_payment_id"))],
      Or.inr ⟨_, rfl⟩, ?_⟩
    rw [hm, detailChecks_razorpay, razorpayChecks_complete w hpd hmd2]
    cases hh : w.hmacSha256Hex (signedMessage w
        (readOr (field body "payment_details") "razorpay_order_id")
        (readOr (field body "payment_details") "razorpay_payment_id")) with
    | error e =>
      rw [hh] at hs
      cases hs
    | ok d =>
      rw [hh] at hs
      simp only at hs
      simp [hs]

theorem createPayment_calls_of_passes {w : World} {body : Body}
    (h : passesValidation w body = true) :
    ∃ pre, (pre = [] ∨ ∃ msg, pre = [Call.hmac msg]) ∧
      (createPayment w body).calls =
        pre ++ ((finalTotalPrice w (field body "total_price") (field body "is_deposit")
            (field body "property_id")).2 ++
          [.createMyPayment (newPayment w body
            (.obj (methodFields.map fun k => (k, orNull (detailField body k))))
            (finalTotalPrice w (field body "total_price") (field body "is_deposit")
              (field body "property_id")).1)]) := by
  obtain ⟨pre, hpre, hd⟩ := detailChecks_of_passes h
  obtain ⟨hnd, htop, hinc, _, _⟩ := passesValidation_parts h
  have hpd : truthy (field body "payment_details") = true :=
    missingTopLevel_nil htop "payment_details" (by decide)
  refine ⟨pre, hpre, ?_⟩
  rw [createPayment_calls_of_detail_pass w body hnd htop hinc pre hd,
    persistPayment_calls w body hpd]

theorem persisted_of_passes {w : World} {body : Body}
    (h : passesValidation w body = true) :
    persisted (createPayment w body) =
      [newPayment w body (.obj (methodFields.map fun k => (k, orNull (detailField body k))))
        (finalTotalPrice w (field body "total_price") (field body "is_deposit")
          (field body "property_id")).1] := by
  obtain ⟨pre, hpre, hc⟩ := createPayment_calls_of_passes h
  simp only [persisted, hc, finalTotalPrice_calls]
  rcases hpre with rfl | ⟨msg, rfl⟩ <;> split <;> rfl

theorem priceLookups_of_passes {w : World} {body : Body}
    (h : passesValidation w body = true) :
    priceLookups (createPayment w body) =
      if truthy (field body "is_deposit") && !truthy (field body "total_price") then
        [field body "property_id"]
      else [] := by
  obtain ⟨pre, hpre, hc⟩ := createPayment_calls_of_passes h
  simp only [priceLookups, hc, finalTotalPrice_calls]
  rcases hpre with rfl | ⟨msg, rfl⟩ <;> split <;> rfl

theorem passesValidation_razorpay {w : World} {body : Body}
    (hnd : delegated body = false) (htop : missingTopLevel body = [])
    (hm : field body "payment_method" = .str "razorpay")
    (hmd : missingDetails (field body "payment_details") razorpayFieldNames = [])
    (hs : signatureMatches w body = true) : passesValidation w body = true := by
  have hr : requiredDetails (.str "razorpay") = razorpayFieldNames := by decide
  have hi : includesMethod (.str "razorpay") = true := by decide
  simp [passesValidation, hnd, htop, hm, hr, hi, hmd, hs]

theorem createPayment_razorpay_missing (w : World) (body : Body)
    (hnd : delegated body = false) (htop : missingTopLevel body = [])
    (hm : field body "payment_method" = .str "razorpay")
    (hmd : missingDetails (field body "payment_details") razorpayFieldNames ≠ []) :
    createPayment w body =
      ⟨.fail 400 "Razorpay details validation failed"
        (some ((missingDetails (field body "payment_details") razorpayFieldNames).map
          requiredMessage)) none, []⟩ := by
  have hpd : truthy (field body "payment_details") = true :=
    missingTopLevel_nil htop "payment_details" (by decide)
  have hinc : includesMethod (field body "payment_method") = true := by
    rw [hm]; decide
  apply createPayment_of_detail_response w body hnd htop hinc
  rw [hm, detailChecks_razorpay, razorpayChecks_missing w hpd hmd]

theorem createPayment_razorpay_rejected (w : World) (body : Body)
    (hnd : delegated body = false) (htop : missingTopLevel body = [])
    (hm : field body "payment_method" = .str "razorpay")
    (hmd : missingDetails (field body "payment_details") razorpayFieldNames = [])
    (hs : signatureMatches w body = false) :
    ∃ msg e, createPayment w body =
      ⟨.fail 400 msg none e,
        [.hmac (signedMessage w (detailField body "razorpay_order_id")
          (detailField body "razorpay_payment_id"))]⟩ ∧
      (∀ digest, w.hmacSha256Hex (signedMessage w (detailField body "razorpay_order_id")
          (detailField body "razorpay_payment_id")) = .ok digest →
        msg = "Invalid Razorpay signature" ∧ e = none) := by
  have hpd : truthy (field body "payment_details") = true :=
    missingTopLevel_nil htop "payment_details" (by decide)
  have hinc : includesMethod (field body "payment_method") = true := by
    rw [hm]; decide
  simp only [signatureMatches, detailField] at hs
  simp only [detailField]
  cases hh : w.hmacSha256Hex (signedMessage w
      (readOr (field body "payment_details") "razorpay_order_id")
      (readOr (field body "payment_details") "razorpay_payment_id")) with
  | error err =>
    refine ⟨"Error verifying signature", some err, ?_, ?_⟩
    · apply createPayment_of_detail_response w body hnd htop hinc
      rw [hm, detailChecks_razorpay, razorpayChecks_complete w hpd hmd, hh]
    · intro digest hd
      cases hd
  | ok d =>
    rw [hh] at hs
    simp only at hs
    refine ⟨"Invalid Razorpay signature", none, ?_, ?_⟩
    · apply createPayment_of_detail_response w body hnd htop hinc
      rw [hm, detailChecks_razorpay, razorpayChecks_complete w hpd hmd, hh]
      simp [hs]
    · intro digest _
      exact ⟨rfl, rfl⟩

theorem signatureMatches_iff (w : World) (body : Body) :
    signatureMatches w body = true ↔
      ∃ digest, w.hmacSha256Hex (signedMessage w (detailField body "razorpay_order_id")
          (detailField body "razorpay_payment_id")) = .ok digest ∧
        detailField body "razorpay_signature" = .str digest := by
  unfold signatureMatches
  cases w.hmacSha256Hex (signedMessage w (detailField body "razorpay_order_id")
      (detailField body "razorpay_payment_id")) with
  | error e => simp
  | ok d => simp [strictEq_str_left]

theorem field_methodFields (g : String → JsVal) :
    ∀ k ∈ methodFields, field (methodFields.map fun k => (k, g k)) k = g k := by
  intro k hk
  simp only [methodFields, List.mem_cons, List.mem_singleton, List.not_mem_nil,
    or_false] at hk
  rcases hk with rfl | rfl | rfl | rfl | rfl | rfl | rfl | rfl <;> rfl

theorem verifyParamErrors_eq (body : Body) :
    verifyParamErrors body = (missingParams body).map requiredMessage := by
  simp only [verifyParamErrors, missingParams, verifyParams, List.filter]
  cases truthy (field body "razorpay_order_id") <;>
    cases truthy (field body "razorpay_payment_id") <;>
    cases truthy (field body "razorpay_signature") <;> rfl

theorem missingParams_count (body : Body) :
    ∀ f ∈ verifyParams,
      ((missingParams body).map requiredMessage).count (requiredMessage f) =
        if truthy (field body f) then 0 else 1 := by
  intro f hf
  simp only [verifyParams, List.mem_cons, List.mem_singleton, List.not_mem_nil,
    or_false] at hf
  simp only [missingParams, verifyParams, List.filter]
  rcases hf with rfl | rfl | rfl <;>
  cases truthy (field body "razorpay_order_id") <;>
    cases truthy (field body "razorpay_payment_id") <;>
    cases truthy (field body "razorpay_signature") <;> decide

theorem verifyRazorpayPayment_of_missing (w : World) (body : Body)
    (hmiss : missingParams body ≠ []) :
    verifyRazorpayPayment w body =
      ⟨.fail 400 "Payment verification failed: Missing required parameters"
        (some ((missingParams body).map requiredMessage)) none, []⟩ := by
  have hlen : 0 < (missingParams body).length := List.length_pos.mpr hmiss
  simp [verifyRazorpayPayment, verifyParamErrors_eq, hlen]

theorem verifyRazorpayPayment_of_complete (w : World) (body : Body)
    (hall : missingParams body = []) (digest : String)
    (hd : w.hmacSha256Hex (signedMessage w (field body "razorpay_order_id")
      (field body "razorpay_payment_id")) = .ok digest) :
    verifyRazorpayPayment w body =
      if strictEq (.str digest) (field body "razorpay_signature") then
        match fetchedStatus w body with
        | none =>
          ⟨.verified "Payment verification successful" (field body "razorpay_payment_id")
              (field body "razorpay_order_id"),
            [.hmac (signedMessage w (field body "razorpay_order_id")
              (field body "razorpay_payment_id")),
             .fetchPayment (field body "razorpay_payment_id")]⟩
        | some status =>
          if acceptedStatus status then
            ⟨.verified "Payment verification successful" (field body "razorpay_payment_id")
                (field body "razorpay_order_id"),
              [.hmac (signedMessage w (field body "razorpay_order_id")
                (field body "razorpay_payment_id")),
               .fetchPayment (field body "razorpay_payment_id")] ++
              orderAmountCheck w (field body "razorpay_order_id")
                (match w.fetchPayment (field body "razorpay_payment_id") with
                  | .ok paymentDetails => paymentDetails
                  | .error _ => .undefined)⟩
          else
            ⟨.fail 400 ("Payment verification failed. Payment status is " ++
                toStr w.numToString status) none none,
              [.hmac (signedMessage w (field body "razorpay_order_id")
                (field body "razorpay_payment_id")),
               .fetchPayment (field body "razorpay_payment_id")]⟩
      else
        ⟨.fail 400 "Invalid payment signature. Payment verification failed." none none,
          [.hmac (signedMessage w (field body "razorpay_order_id")
            (field body "razorpay_payment_id"))]⟩ := by
  simp only [verifyRazorpayPayment, verifyParamErrors_eq, hall, hd, fetchedStatus,
    acceptedStatus, List.map_nil, List.length_nil, gt_iff_lt, lt_self_iff_false, if_false]
  cases hs : strictEq (.str digest) (field body "razorpay_signature") with
  | false => rfl
  | true =>
    simp only [Bool.not_true, Bool.false_eq_true, if_false, if_true]
    cases w.fetchPayment (field body "razorpay_payment_id") with
    | error e => rfl
    | ok pay =>
      simp only
      cases getProp pay "status" with
      | error e => rfl
      | ok status =>
        simp only
        cases strictEq status (.str "authorized") <;>
          cases strictEq status (.str "captured") <;> rfl

/-! ## Claims about createPayment: validation -/

/-- C1: a request that is not delegated and lacks at least one of the six required
top-level fields is answered 400 "Validation failed"; its errors list is one
"<field> is required" message per missing field, in the fixed checking order, so the
message of a missing field occurs exactly once and that of a field holding a truthy
(non-empty, non-zero) value does not occur; nothing is handed to `createMyPayment`. -/
theorem createPayment_required_top_level (w : World) (body : Body)
    (hnd : delegated body = false) (hmiss : missingTopLevel body ≠ []) :
    (createPayment w body).response =
        .fail 400 "Validation failed" (some ((missingTopLevel body).map requiredMessage)) none
      ∧ (∀ f ∈ requiredTopLevel,
          (reported (createPayment w body).response).count (requiredMessage f) =
            if truthy (field body f) then 0 else 1)
      ∧ persisted (createPayment w body) = [] := by
  rw [createPayment_of_missing w body hnd hmiss]
  exact ⟨rfl, missingTopLevel_count body, rfl⟩

/-- Witness for C1: a card request without `user_id`. -/
theorem createPayment_required_top_level_witness :
    delegated bodyNoUserNoCard = false ∧ missingTopLevel bodyNoUserNoCard ≠ [] ∧
      (createPayment demoWorld bodyNoUserNoCard).response =
        .fail 400 "Validation failed"
          (some ((missingTopLevel bodyNoUserNoCard).map requiredMessage)) none :=
  ⟨by decide, by decide,
    (createPayment_required_top_level demoWorld bodyNoUserNoCard (by decide) (by decide)).1⟩

/-- C2: for a request that is not delegated and has its six top-level fields, every
required detail field of its payment method (card or credit_card: card_holder, card_number,
expiry_date, cvv; upi: upi_id; razorpay: razorpay_payment_id, razorpay_order_id,
razorpay_signature) that is missing from `payment_details` is reported by exactly one
message, the response is a 400, and nothing is handed to `createMyPayment`. -/
theorem createPayment_missing_detail_reported (w : World) (body : Body)
    (hnd : delegated body = false) (htop : missingTopLevel body = [])
    (F : String) (hF : F ∈ requiredDetails (field body "payment_method"))
    (hmissing : truthy (detailField body F) = false) :
    statusOf (createPayment w body).response = 400
      ∧ (reported (createPayment w body).response).count (detailMessage F) = 1
      ∧ persisted (createPayment w body) = [] := by
  obtain ⟨h1, h2, h3⟩ := createPayment_detail_missing w body hnd htop F hF hmissing
  exact ⟨h1, h2, persisted_of_calls_nil h3⟩

/-- Witness for C2: a card request without `card_number`. -/
theorem createPayment_missing_detail_reported_witness :
    delegated bodyCardNoNumber = false ∧ missingTopLevel bodyCardNoNumber = [] ∧
      "card_number" ∈ requiredDetails (field bodyCardNoNumber "payment_method") ∧
      truthy (detailField bodyCardNoNumber "card_number") = false ∧
      (reported (createPayment demoWorld bodyCardNoNumber).response).count
        (detailMessage "card_number") = 1 :=
  ⟨by decide, by decide, by decide, by decide,
    (createPayment_missing_detail_reported demoWorld bodyCardNoNumber (by decide) (by decide)
      "card_number" (by decide) (by decide)).2.1⟩

/-- C3, as stated, fails: a card request that lacks `user_id` and `card_holder` is answered
with the top-level message alone; the card detail check is never reached. -/
theorem createPayment_returns_before_detail_checks :
    delegated bodyNoUserNoCard = false ∧
      (createPayment demoWorld bodyNoUserNoCard).response =
        .fail 400 "Validation failed" (some ["user_id is required"]) none ∧
      truthy (detailField bodyNoUserNoCard "card_holder") = false ∧
      ¬ ReportsEveryMissing demoWorld bodyNoUserNoCard := by
  refine ⟨by decide, rfl, by decide, ?_⟩
  intro h
  have := h.2 (by decide) "card_holder" (by decide) (by decide)
  revert this
  decide

/-- C3, amended: validation is staged. For a request that is not delegated, the message of
every missing top-level field is reported; when a top-level field is missing the reported
list is exactly the top-level messages; the message of every missing detail field of the
method is reported when the six top-level fields are all present. -/
theorem createPayment_reports_by_stage (w : World) (body : Body)
    (hnd : delegated body = false) :
    (∀ f ∈ requiredTopLevel, truthy (field body f) = false →
        requiredMessage f ∈ reported (createPayment w body).response)
      ∧ (missingTopLevel body ≠ [] →
        reported (createPayment w body).response =
          (missingTopLevel body).map requiredMessage)
      ∧ (missingTopLevel body = [] →
        ∀ F ∈ requiredDetails (field body "payment_method"),
          truthy (detailField body F) = false →
            detailMessage F ∈ reported (createPayment w body).response) := by
  refine ⟨?_, ?_, ?_⟩
  · intro f hf hfalse
    have hmem : f ∈ missingTopLevel body :=
      List.mem_filter.mpr ⟨hf, by simp [hfalse]⟩
    rw [createPayment_of_missing w body hnd (List.ne_nil_of_mem hmem)]
    exact List.mem_map_of_mem _ hmem
  · intro hmiss
    rw [createPayment_of_missing w body hnd hmiss]
    rfl
  · intro htop F hF hmissing
    have h := (createPayment_detail_missing w body hnd htop F hF hmissing).2.1
    exact List.count_pos_iff.mp (by omega)

/-- Witness for the amended C3: the request without `user_id` and without card details
reports exactly the `user_id` message. -/
theorem createPayment_reports_by_stage_witness :
    delegated bodyNoUserNoCard = false ∧
      reported (createPayment demoWorld bodyNoUserNoCard).response =
        (missingTopLevel bodyNoUserNoCard).map requiredMessage :=
  ⟨by decide, (createPayment_reports_by_stage demoWorld bodyNoUserNoCard (by decide)).2.1
    (by decide)⟩

/-- C5: a request with a truthy `is_apartment` and a truthy `unit_id` is answered by the
apartment booking handler and by nothing else, whatever its other fields are: the only
collaborator call is the delegation, so no validation, method, detail or signature check
decides the outcome and `createMyPayment` is not called. -/
theorem createPayment_apartment_delegated (w : World) (body : Body)
    (h : delegated body = true) :
    createPayment w body = ⟨w.bookApartment body, [.bookApartment body]⟩
      ∧ persisted (createPayment w body) = [] := by
  rw [createPayment_of_delegated w body h]
  exact ⟨rfl, rfl⟩

/-- Witness for C5: an apartment request with no other field at all. -/
theorem createPayment_apartment_delegated_witness :
    delegated bodyApartment = true ∧ missingTopLevel bodyApartment ≠ [] ∧
      createPayment demoWorld bodyApartment =
        ⟨demoWorld.bookApartment bodyApartment, [.bookApartment bodyApartment]⟩ :=
  ⟨by decide, by decide,
    (createPayment_apartment_delegated demoWorld bodyApartment (by decide)).1⟩


/-- C4: for a Razorpay request that is not delegated and has its six top-level fields:
when one of razorpay_payment_id, razorpay_order_id, razorpay_signature is missing the outcome
is the missing-field error and the digest is not even computed; when the three are present
and the signature differs from the hex digest of order id, bar, payment id, the outcome is
the 400 "Invalid Razorpay signature"; and a payment is handed to `createMyPayment` exactly when
the three are present and the signature is equal to that digest. -/
theorem createPayment_razorpay_signature (w : World) (body : Body)
    (hnd : delegated body = false) (htop : missingTopLevel body = [])
    (hm : field body "payment_method" = .str "razorpay") :
    (missingDetails (field body "payment_details") razorpayFieldNames ≠ [] →
        createPayment w body =
          ⟨.fail 400 "Razorpay details validation failed"
            (some ((missingDetails (field body "payment_details") razorpayFieldNames).map
              requiredMessage)) none, []⟩)
      ∧ (missingDetails (field body "payment_details") razorpayFieldNames = [] →
        ∀ digest,
          w.hmacSha256Hex (signedMessage w (detailField body "razorpay_order_id")
            (detailField body "razorpay_payment_id")) = .ok digest →
          detailField body "razorpay_signature" ≠ .str digest →
          createPayment w body =
            ⟨.fail 400 "Invalid Razorpay signature" none none,
              [.hmac (signedMessage w (detailField body "razorpay_order_id")
                (detailField body "razorpay_payment_id"))]⟩)
      ∧ (persisted (createPayment w body) ≠ [] ↔
        missingDetails (field body "payment_details") razorpayFieldNames = [] ∧
          ∃ digest,
            w.hmacSha256Hex (signedMessage w (detailField body "razorpay_order_id")
              (detailField body "razorpay_payment_id")) = .ok digest ∧
            detailField body "razorpay_signature" = .str digest) := by
  refine ⟨createPayment_razorpay_missing w body hnd htop hm, ?_, ?_⟩
  · intro hmd digest hd hne
    have hs : signatureMatches w body = false := by
      cases hsm : signatureMatches w body with
      | false => rfl
      | true =>
        obtain ⟨d, hd2, hsig⟩ := (signatureMatches_iff w body).mp hsm
        rw [hd] at hd2
        cases hd2
        exact absurd hsig hne
    obtain ⟨msg, e, hc, hmsg⟩ := createPayment_razorpay_rejected w body hnd htop hm hmd hs
    obtain ⟨rfl, rfl⟩ := hmsg digest hd
    exact hc
  · by_cases hmd : missingDetails (field body "payment_details") razorpayFieldNames = []
    · cases hsm : signatureMatches w body with
      | false =>
        obtain ⟨msg, e, hc, _⟩ := createPayment_razorpay_rejected w body hnd htop hm hmd hsm
        have hsm2 := (signatureMatches_iff w body).not.mp (by simp [hsm])
        constructor
        · intro hp
          rw [hc] at hp
          exact absurd rfl hp
        · intro hx
          exact absurd hx.2 hsm2
      | true =>
        have hp := persisted_of_passes (passesValidation_razorpay hnd htop hm hmd hsm)
        constructor
        · intro _
          exact ⟨hmd, (signatureMatches_iff w body).mp hsm⟩
        · intro _
          rw [hp]
          exact List.cons_ne_nil _ _
    · constructor
      · intro hp
        rw [createPayment_razorpay_missing w body hnd htop hm hmd] at hp
        exact absurd rfl hp
      · intro hx
        exact absurd hx.1 hmd

/-- Witness for C4: a complete Razorpay request carrying the digest is persisted. -/
theorem createPayment_razorpay_signature_witness :
    delegated bodyRazorpay = false ∧ missingTopLevel bodyRazorpay = [] ∧
      field bodyRazorpay "payment_method" = .str "razorpay" ∧
      persisted (createPayment demoWorld bodyRazorpay) ≠ [] :=
  ⟨by decide, by decide, rfl,
    (createPayment_razorpay_signature demoWorld bodyRazorpay (by decide) (by decide) rfl).2.2.mpr
      ⟨by decide, "sig:order_1|pay_1", rfl, rfl⟩⟩

/-! ## Claims about createPayment: the persisted record -/

/-- C6: for every request that passes validation exactly one payment is handed to
`createMyPayment`; its payment_method is `credit_card` when the request says `card` and the
request's method otherwise, hence one of credit_card, upi, razorpay and never `card`. -/
theorem createPayment_method_standardized (w : World) (body : Body)
    (h : passesValidation w body = true) :
    ∃ p, persisted (createPayment w body) = [p]
      ∧ (field body "payment_method" = .str "card" → p.payment_method = .str "credit_card")
      ∧ (field body "payment_method" ≠ .str "card" →
          p.payment_method = field body "payment_method")
      ∧ (p.payment_method = .str "credit_card" ∨ p.payment_method = .str "upi" ∨
          p.payment_method = .str "razorpay")
      ∧ p.payment_method ≠ .str "card" := by
  refine ⟨_, persisted_of_passes h, ?_, ?_, ?_, ?_⟩
  · intro hm
    simp [newPayment, standardizedMethod, hm, strictEq]
  · intro hm
    have : strictEq (field body "payment_method") (.str "card") = false := by
      cases hs : strictEq (field body "payment_method") (.str "card") with
      | false => rfl
      | true => exact absurd (strictEq_str_right.mp hs) hm
    simp [newPayment, standardizedMethod, this]
  · obtain ⟨_, _, hinc, _, _⟩ := passesValidation_parts h
    rcases includesMethod_iff.mp hinc with hm | hm | hm | hm <;>
      simp [newPayment, standardizedMethod, hm, strictEq]
  · obtain ⟨_, _, hinc, _, _⟩ := passesValidation_parts h
    rcases includesMethod_iff.mp hinc with hm | hm | hm | hm <;>
      simp [newPayment, standardizedMethod, hm, strictEq]

/-- Witness for C6: a complete request sent with the alias `card`. -/
theorem createPayment_method_standardized_witness :
    passesValidation demoWorld bodyCardDeposit = true ∧
      ∃ p, persisted (createPayment demoWorld bodyCardDeposit) = [p]
        ∧ p.payment_method = .str "credit_card" := by
  obtain ⟨p, hp, hcard, _⟩ :=
    createPayment_method_standardized demoWorld bodyCardDeposit (by decide)
  exact ⟨by decide, p, hp, hcard rfl⟩


/-- C7, as stated, fails: a valid UPI request whose `payment_details` also carries a card
number is stored with that card number, a field that does not belong to UPI. -/
theorem createPayment_keeps_foreign_detail :
    passesValidation demoWorld bodyUpiWithCard = true ∧
      (persisted (createPayment demoWorld bodyUpiWithCard)).map
          (fun p => (p.payment_method, readOr p.payment_details "card_number")) =
        [(.str "upi", .str "4111111111111111")] ∧
      ¬ ∀ p ∈ persisted (createPayment demoWorld bodyUpiWithCard), NonApplicableNull p := by
  refine ⟨by decide, rfl, ?_⟩
  intro hall
  have hp : persisted (createPayment demoWorld bodyUpiWithCard) = _ :=
    @persisted_of_passes demoWorld bodyUpiWithCard (by decide)
  have hmem := hall _ (by rw [hp]; exact List.mem_singleton.mpr rfl)
  have hnull := hmem "card_number" (by decide) (by decide)
  have hval : readOr (newPayment demoWorld bodyUpiWithCard
      (.obj (methodFields.map fun k => (k, orNull (detailField bodyUpiWithCard k))))
      (finalTotalPrice demoWorld (field bodyUpiWithCard "total_price")
        (field bodyUpiWithCard "is_deposit") (field bodyUpiWithCard "property_id")).1
      ).payment_details "card_number" = .str "4111111111111111" := rfl
  rw [hval] at hnull
  cases hnull

/-- C7, amended: for every request that passes validation the stored `payment_details` is
an object with exactly the eight method fields as keys; each key holds the request's value
when that value is truthy and null otherwise. So a field is null whenever the request does
not carry it, whatever the method. -/
theorem createPayment_details_sanitized (w : World) (body : Body)
    (h : passesValidation w body = true) :
    ∃ p fields, persisted (createPayment w body) = [p]
      ∧ p.payment_details = .obj fields
      ∧ fields.map Prod.fst = methodFields
      ∧ (∀ k ∈ methodFields, field fields k = orNull (detailField body k))
      ∧ (∀ k ∈ methodFields, truthy (detailField body k) = false → field fields k = .null) := by
  refine ⟨_, _, persisted_of_passes h, rfl, rfl, ?_, ?_⟩
  · exact field_methodFields fun k => orNull (detailField body k)
  · intro k hk hfalse
    rw [field_methodFields (fun k => orNull (detailField body k)) k hk]
    exact orNull_of_falsy hfalse

/-- Witness for the amended C7: the UPI request that also carries a card number. -/
theorem createPayment_details_sanitized_witness :
    passesValidation demoWorld bodyUpiWithCard = true ∧
      ∃ p fields, persisted (createPayment demoWorld bodyUpiWithCard) = [p]
        ∧ p.payment_details = .obj fields ∧ fields.map Prod.fst = methodFields := by
  obtain ⟨p, fields, hp, hd, hk, _⟩ :=
    createPayment_details_sanitized demoWorld bodyUpiWithCard (by decide)
  exact ⟨by decide, p, fields, hp, hd, hk⟩

/-- C8: for every request that passes validation one payment is handed to
`createMyPayment` in every case below. With a truthy `total_price` the stored total is that
value and no lookup is made. With a falsy `total_price` and a truthy `is_deposit` the
property is looked up once: the stored total is the price read by `parseFloat` when the
first row has a price (a truthy value that reads as a non-zero number), and null when the
lookup returns no row, a row without a price, or throws. With a falsy `total_price` and a
falsy `is_deposit` the stored total is null and no lookup is made. -/
theorem createPayment_total_price (w : World) (body : Body)
    (h : passesValidation w body = true) :
    ∃ p, persisted (createPayment w body) = [p]
      ∧ (truthy (field body "total_price") = true →
          p.total_price = field body "total_price" ∧ priceLookups (createPayment w body) = [])
      ∧ (truthy (field body "total_price") = false → truthy (field body "is_deposit") = true →
          priceLookups (createPayment w body) = [field body "property_id"]
          ∧ (∀ row rows, w.propertyPriceQuery (field body "property_id") = .ok (row :: rows) →
              truthy (readOr row "price") = true →
              truthy (w.parseFloat (readOr row "price")) = true →
              p.total_price = w.parseFloat (readOr row "price"))
          ∧ (∀ row rows, w.propertyPriceQuery (field body "property_id") = .ok (row :: rows) →
              truthy (readOr row "price") = true →
              truthy (w.parseFloat (readOr row "price")) = false →
              p.total_price = .null)
          ∧ (∀ row rows, w.propertyPriceQuery (field body "property_id") = .ok (row :: rows) →
              truthy (readOr row "price") = false → p.total_price = .null)
          ∧ (w.propertyPriceQuery (field body "property_id") = .ok [] → p.total_price = .null)
          ∧ (∀ e, w.propertyPriceQuery (field body "property_id") = .error e →
              p.total_price = .null))
      ∧ (truthy (field body "total_price") = false → truthy (field body "is_deposit") = false →
          p.total_price = .null ∧ priceLookups (createPayment w body) = []) := by
  refine ⟨_, persisted_of_passes h, ?_, ?_, ?_⟩
  · intro htp
    have hc : (truthy (field body "is_deposit") && !truthy (field body "total_price")) =
        false := by simp [htp]
    refine ⟨?_, ?_⟩
    · simp only [newPayment, finalTotalPrice_no_lookup w _ _ _ hc]
      exact orNull_of_truthy htp
    · rw [priceLookups_of_passes h, hc]
      rfl
  · intro htp hdep
    have hc : (truthy (field body "is_deposit") && !truthy (field body "total_price")) =
        true := by simp [htp, hdep]
    refine ⟨?_, ?_, ?_, ?_, ?_, ?_⟩
    · rw [priceLookups_of_passes h, hc]
      rfl
    · intro row rows hq hp hpf
      simp only [newPayment, finalTotalPrice_price w _ _ _ row rows hc hq hp]
      exact orNull_of_truthy hpf
    · intro row rows hq hp hpf
      simp only [newPayment, finalTotalPrice_price w _ _ _ row rows hc hq hp]
      exact orNull_of_falsy hpf
    · intro row rows hq hp
      simp only [newPayment, finalTotalPrice_no_price w _ _ _ row rows hq hp]
      exact orNull_of_falsy htp
    · intro hq
      simp only [newPayment, finalTotalPrice_no_row w _ _ _ hq]
      exact orNull_of_falsy htp
    · intro e hq
      simp only [newPayment, finalTotalPrice_error w _ _ _ e hq]
      exact orNull_of_falsy htp
  · intro htp hdep
    have hc : (truthy (field body "is_deposit") && !truthy (field body "total_price")) =
        false := by simp [hdep]
    refine ⟨?_, ?_⟩
    · simp only [newPayment, finalTotalPrice_no_lookup w _ _ _ hc]
      exact orNull_of_falsy htp
    · rw [priceLookups_of_passes h, hc]
      rfl

/-- Witness for C8: a deposit without total price; the lookup finds the price 5000. -/
theorem createPayment_total_price_witness :
    passesValidation demoWorld bodyCardDeposit = true ∧
      ∃ p, persisted (createPayment demoWorld bodyCardDeposit) = [p]
        ∧ p.total_price = .num 5000 := by
  obtain ⟨p, hp, _, hdep, _⟩ := createPayment_total_price demoWorld bodyCardDeposit (by decide)
  exact ⟨by decide, p, hp,
    (hdep (by decide) (by decide)).2.1 (.obj [("price", .num 5000)]) [] rfl (by decide)
      (by decide)⟩


/-! ## Claims about verifyRazorpayPayment -/

/-- C9: for a verification request with its three parameters present, `digest` being the
hex digest of order id, bar, payment id: (a) a signature other than the digest is answered
400 "Invalid payment signature" and no gateway fetch is made; (b) otherwise, a fetched
payment whose status is neither `authorized` nor `captured` is answered 400 with a message
naming that status; (c) otherwise the answer is the success carrying payment id and order
id, whatever the payment fetch, the order fetch and the amount comparison do. -/
theorem verifyRazorpayPayment_outcome (w : World) (body : Body)
    (hall : missingParams body = []) (digest : String)
    (hd : w.hmacSha256Hex (signedMessage w (field body "razorpay_order_id")
      (field body "razorpay_payment_id")) = .ok digest) :
    (field body "razorpay_signature" ≠ .str digest →
        verifyRazorpayPayment w body =
          ⟨.fail 400 "Invalid payment signature. Payment verification failed." none none,
            [.hmac (signedMessage w (field body "razorpay_order_id")
              (field body "razorpay_payment_id"))]⟩)
      ∧ (field body "razorpay_signature" = .str digest →
        ∀ status, fetchedStatus w body = some status → acceptedStatus status = false →
          (verifyRazorpayPayment w body).response =
            .fail 400 ("Payment verification failed. Payment status is " ++
              toStr w.numToString status) none none)
      ∧ (field body "razorpay_signature" = .str digest →
        (∀ status, fetchedStatus w body = some status → acceptedStatus status = true) →
          (verifyRazorpayPayment w body).response =
            .verified "Payment verification successful" (field body "razorpay_payment_id")
              (field body "razorpay_order_id")) := by
  rw [verifyRazorpayPayment_of_complete w body hall digest hd]
  refine ⟨?_, ?_, ?_⟩
  · intro hne
    have hs : strictEq (.str digest) (field body "razorpay_signature") = false := by
      cases h : strictEq (.str digest) (field body "razorpay_signature") with
      | false => rfl
      | true => exact absurd (strictEq_str_left.mp h) hne
    simp [hs]
  · intro heq status hst hacc
    simp [strictEq_str_left.mpr heq, hst, hacc]
  · intro heq hok
    rw [strictEq_str_left.mpr heq]
    cases hst : fetchedStatus w body with
    | none => rfl
    | some status => simp [hok status hst]

/-- Witness for C9: a correctly signed request is verified although the order fetch
fails. -/
theorem verifyRazorpayPayment_outcome_witness :
    missingParams bodyVerify = [] ∧
      (verifyRazorpayPayment demoWorldOrderDown bodyVerify).response =
        .verified "Payment verification successful" (field bodyVerify "razorpay_payment_id")
          (field bodyVerify "razorpay_order_id") :=
  ⟨by decide,
    (verifyRazorpayPayment_outcome demoWorldOrderDown bodyVerify (by decide)
      "sig:order_1|pay_1" rfl).2.2 rfl (by
        intro status hst
        have hf : fetchedStatus demoWorldOrderDown bodyVerify = some (.str "captured") := rfl
        rw [hf] at hst
        cases hst
        rfl)⟩

/-- C10: when one of razorpay_order_id, razorpay_payment_id, razorpay_signature is absent,
`verifyRazorpayPayment` answers 400 with an errors list holding one "<param> is required"
message per absent parameter, in that order, and none for a present one, and it calls no
collaborator (no digest, no gateway call); when none is absent the response carries no
errors list. -/
theorem verifyRazorpayPayment_missing_parameters (w : World) (body : Body) :
    (missingParams body ≠ [] →
        verifyRazorpayPayment w body =
          ⟨.fail 400 "Payment verification failed: Missing required parameters"
            (some ((missingParams body).map requiredMessage)) none, []⟩
        ∧ ∀ f ∈ verifyParams,
          (reported (verifyRazorpayPayment w body).response).count (requiredMessage f) =
            if truthy (field body f) then 0 else 1)
      ∧ (missingParams body = [] →
        ∀ status message errors error,
          (verifyRazorpayPayment w body).response ≠
            .fail status message (some errors) error) := by
  refine ⟨?_, ?_⟩
  · intro hmiss
    rw [verifyRazorpayPayment_of_missing w body hmiss]
    exact ⟨rfl, missingParams_count body⟩
  · intro hall status message errors error
    cases hh : w.hmacSha256Hex (signedMessage w (field body "razorpay_order_id")
        (field body "razorpay_payment_id")) with
    | error e =>
      simp [verifyRazorpayPayment, verifyParamErrors_eq, hall, hh]
    | ok digest =>
      rw [verifyRazorpayPayment_of_complete w body hall digest hh]
      split
      · split
        · simp
        · split <;> simp
      · simp

/-- Witness for C10: a request with the order id only. -/
theorem verifyRazorpayPayment_missing_parameters_witness :
    missingParams bodyVerifyOrderOnly ≠ [] ∧
      verifyRazorpayPayment demoWorld bodyVerifyOrderOnly =
        ⟨.fail 400 "Payment verification failed: Missing required parameters"
          (some ((missingParams bodyVerifyOrderOnly).map requiredMessage)) none, []⟩ :=
  ⟨by decide,
    ((verifyRazorpayPayment_missing_parameters demoWorld bodyVerifyOrderOnly).1
      (by decide)).1⟩

/-! ## Lemmas about the signed text -/

theorem signedMessage_str (w : World) (o p : String) :
    signedMessage w (.str o) (.str p) = o ++ "|" ++ p := rfl

theorem truthy_str (s : String) : truthy (.str s) = (s != "") := rfl

theorem truthy_str_of_ne {s : String} (h : s ≠ "") : truthy (.str s) = true := by
  simp [truthy, h]

theorem verifyAccepts_verifyBody (w : World) (o p s : String)
    (ho : o ≠ "") (hp : p ≠ "") :
    verifyAccepts w (verifyBody o p s) =
      (s != "" &&
        match w.hmacSha256Hex (o ++ "|" ++ p) with
        | .ok digest => digest == s
        | .error _ => false) := by
  have hfo : field (verifyBody o p s) "razorpay_order_id" = .str o := rfl
  have hfp : field (verifyBody o p s) "razorpay_payment_id" = .str p := rfl
  have hfs : field (verifyBody o p s) "razorpay_signature" = .str s := rfl
  have hto := truthy_str_of_ne ho
  have htp := truthy_str_of_ne hp
  by_cases hs : s = ""
  · have hts : truthy (.str s) = false := by rw [hs]; rfl
    have hmiss : missingParams (verifyBody o p s) ≠ [] := by
      simp only [missingParams, verifyParams, List.filter, hfo, hfp, hfs, hto, htp, hts]
      simp
    rw [verifyAccepts, verifyRazorpayPayment_of_missing w _ hmiss]
    have : (s != "") = false := by rw [hs]; rfl
    rw [this]
    rfl
  · have hts := truthy_str_of_ne hs
    have hall : missingParams (verifyBody o p s) = [] := by
      simp only [missingParams, verifyParams, List.filter, hfo, hfp, hfs, hto, htp, hts]
      rfl
    have hne : (s != "") = true := by simp [hs]
    rw [hne, Bool.true_and]
    cases hh : w.hmacSha256Hex (o ++ "|" ++ p) with
    | error e =>
      have hh2 : w.hmacSha256Hex (signedMessage w (field (verifyBody o p s) "razorpay_order_id")
          (field (verifyBody o p s) "razorpay_payment_id")) = .error e := by
        rw [hfo, hfp, signedMessage_str]; exact hh
      simp only [verifyAccepts, verifyRazorpayPayment, verifyParamErrors_eq, hall, hh2,
        List.map_nil, List.length_nil, gt_iff_lt, lt_self_iff_false, if_false]
      rfl
    | ok d =>
      have hh2 : w.hmacSha256Hex (signedMessage w (field (verifyBody o p s) "razorpay_order_id")
          (field (verifyBody o p s) "razorpay_payment_id")) = .ok d := by
        rw [hfo, hfp, signedMessage_str]; exact hh
      rw [verifyAccepts, verifyRazorpayPayment_of_complete w _ hall d hh2, hfs]
      simp only [strictEq]
      by_cases hds : (d == s) = true
      · rw [if_pos hds, hds]
        split
        · rfl
        · split <;> rfl
      · rw [if_neg hds]
        simp only [Bool.not_eq_true] at hds
        rw [hds]
        rfl

theorem persisted_nil_of_not_passes {w : World} {body : Body}
    (hm : field body "payment_method" = .str "razorpay")
    (h : passesValidation w body = false) : persisted (createPayment w body) = [] := by
  cases hd : delegated body with
  | true => rw [createPayment_of_delegated w body hd]; rfl
  | false =>
    by_cases htop : missingTopLevel body = []
    · by_cases hmd : missingDetails (field body "payment_details") razorpayFieldNames = []
      · cases hs : signatureMatches w body with
        | true => rw [passesValidation_razorpay hd htop hm hmd hs] at h; cases h
        | false =>
          obtain ⟨msg, e, hc, _⟩ := createPayment_razorpay_rejected w body hd htop hm hmd hs
          rw [hc]; rfl
      · rw [createPayment_razorpay_missing w body hd htop hm hmd]; rfl
    · rw [createPayment_of_missing w body hd htop]; rfl

theorem createAccepts_eq_passes {w : World} {body : Body}
    (hm : field body "payment_method" = .str "razorpay") :
    createAccepts w body = passesValidation w body := by
  cases h : passesValidation w body with
  | true => simp [createAccepts, persisted_of_passes h]
  | false => simp [createAccepts, persisted_nil_of_not_passes hm h]

theorem passesValidation_razorpayBody (w : World) (rest : Body) (o p s : String)
    (ho : o ≠ "") (hp : p ≠ "") :
    passesValidation w (razorpayBody rest o p s) =
      (!delegated rest && (missingTopLevel (razorpayBody rest "" "" "")).isEmpty &&
        (s != "") &&
        match w.hmacSha256Hex (o ++ "|" ++ p) with
        | .ok digest => digest == s
        | .error _ => false) := by
  have hd : delegated (razorpayBody rest o p s) = delegated rest := rfl
  have hmt : missingTopLevel (razorpayBody rest o p s) =
      missingTopLevel (razorpayBody rest "" "" "") := rfl
  have hmeth : field (razorpayBody rest o p s) "payment_method" = .str "razorpay" := rfl
  have hreq : requiredDetails (.str "razorpay") = razorpayFieldNames := by decide
  have hinc : includesMethod (.str "razorpay") = true := by decide
  have hse : strictEq (.str "razorpay") (.str "razorpay") = true := by decide
  have hdet : (missingDetails (field (razorpayBody rest o p s) "payment_details")
      razorpayFieldNames).isEmpty = (s != "") := by
    have h1 : readOr (field (razorpayBody rest o p s) "payment_details")
        "razorpay_payment_id" = .str p := rfl
    have h2 : readOr (field (razorpayBody rest o p s) "payment_details")
        "razorpay_order_id" = .str o := rfl
    have h3 : readOr (field (razorpayBody rest o p s) "payment_details")
        "razorpay_signature" = .str s := rfl
    simp only [missingDetails, razorpayFieldNames, List.filter, h1, h2, h3,
      truthy_str_of_ne ho, truthy_str_of_ne hp, truthy_str]
    cases (s != "") <;> rfl
  have hsig : signatureMatches w (razorpayBody rest o p s) =
      match w.hmacSha256Hex (o ++ "|" ++ p) with
      | .ok digest => digest == s
      | .error _ => false := by
    have h1 : detailField (razorpayBody rest o p s) "razorpay_payment_id" = .str p := rfl
    have h2 : detailField (razorpayBody rest o p s) "razorpay_order_id" = .str o := rfl
    have h3 : detailField (razorpayBody rest o p s) "razorpay_signature" = .str s := rfl
    simp only [signatureMatches, h1, h2, h3, signedMessage_str]
    cases w.hmacSha256Hex (o ++ "|" ++ p) <;> rfl
  simp only [passesValidation, hd, hmt, hmeth, hreq, hinc, hse, hdet, hsig, Bool.not_true,
    Bool.false_or, Bool.and_true]

/-! ## Claim about the signed text -/

/-- C17: the signed text is order id, bar, payment id, and distinct pairs can give the same
text: the pairs `a|b`, `c` and `a`, `b|c` do. For two pairs of non-empty ids with the same
text, and for every secret (every `World`) and every signature, `verifyRazorpayPayment`
accepts the signature for one pair exactly when it accepts it for the other, and so does the
inline check of `createPayment`; the two handlers agree with each other because they sign
the same text. -/
theorem signedMessage_collision (w : World) (o p o2 p2 : String)
    (ho : o ≠ "") (hp : p ≠ "") (ho2 : o2 ≠ "") (hp2 : p2 ≠ "")
    (hsame : o ++ "|" ++ p = o2 ++ "|" ++ p2) :
    (("a|b", "c") ≠ ("a", "b|c") ∧
        signedMessage w (.str "a|b") (.str "c") = signedMessage w (.str "a") (.str "b|c"))
      ∧ signedMessage w (.str o) (.str p) = signedMessage w (.str o2) (.str p2)
      ∧ (∀ s, verifyAccepts w (verifyBody o p s) = verifyAccepts w (verifyBody o2 p2 s))
      ∧ (∀ rest s, createAccepts w (razorpayBody rest o p s) =
          createAccepts w (razorpayBody rest o2 p2 s))
      ∧ (∀ rest s, delegated rest = false → missingTopLevel (razorpayBody rest o p s) = [] →
          createAccepts w (razorpayBody rest o p s) = verifyAccepts w (verifyBody o p s)) := by
  refine ⟨⟨by decide, rfl⟩, ?_, ?_, ?_, ?_⟩
  · rw [signedMessage_str, signedMessage_str, hsame]
  · intro s
    rw [verifyAccepts_verifyBody w o p s ho hp, verifyAccepts_verifyBody w o2 p2 s ho2 hp2,
      hsame]
  · intro rest s
    have h1 : field (razorpayBody rest o p s) "payment_method" = .str "razorpay" := rfl
    have h2 : field (razorpayBody rest o2 p2 s) "payment_method" = .str "razorpay" := rfl
    rw [createAccepts_eq_passes h1, createAccepts_eq_passes h2,
      passesValidation_razorpayBody w rest o p s ho hp,
      passesValidation_razorpayBody w rest o2 p2 s ho2 hp2, hsame]
  · intro rest s hnd htop
    have hmt : missingTopLevel (razorpayBody rest "" "" "") = [] := htop
    have h1 : field (razorpayBody rest o p s) "payment_method" = .str "razorpay" := rfl
    rw [createAccepts_eq_passes h1, passesValidation_razorpayBody w rest o p s ho hp,
      verifyAccepts_verifyBody w o p s ho hp, hnd, hmt]
    rfl

/-- Witness for C17: the digest made for the pair `a|b`, `c` is accepted for the pair `a`,
`b|c`. -/
theorem signedMessage_collision_witness :
    "a|b" ++ "|" ++ "c" = "a" ++ "|" ++ "b|c" ∧
      verifyAccepts demoWorld (verifyBody "a" "b|c" "sig:a|b|c") = true ∧
      verifyAccepts demoWorld (verifyBody "a|b" "c" "sig:a|b|c") =
        verifyAccepts demoWorld (verifyBody "a" "b|c" "sig:a|b|c") :=
  ⟨by decide, by decide,
    (signedMessage_collision demoWorld "a|b" "c" "a" "b|c" (by decide) (by decide) (by decide)
      (by decide) (by decide)).2.2.1 "sig:a|b|c"⟩

/-! ## Lemmas about rounding to a double -/

theorem roundHalfEven_intCast (n : ℤ) : roundHalfEven (n : ℚ) = n := by
  simp [roundHalfEven]

theorem roundHalfEven_of_lt {x : ℚ} {n : ℤ} (h : |x - n| < 1 / 2) : roundHalfEven x = n := by
  rw [abs_lt] at h
  obtain ⟨h1, h2⟩ := h
  unfold roundHalfEven
  by_cases hx : (n : ℚ) ≤ x
  · have hf : ⌊x⌋ = n := by
      rw [Int.floor_eq_iff]
      constructor <;> linarith
    rw [hf, if_pos (by linarith)]
  · have hf : ⌊x⌋ = n - 1 := by
      rw [Int.floor_eq_iff]
      push_cast
      constructor <;> linarith
    rw [hf]
    push_cast
    rw [if_neg (by linarith), if_pos (by linarith)]
    ring

theorem roundHalfEven_tie_even {x : ℚ} {n : ℤ} (h : x = n + 1 / 2) (hn : n % 2 = 0) :
    roundHalfEven x = n := by
  have hf : ⌊x⌋ = n := by
    rw [Int.floor_eq_iff]
    constructor <;> linarith
  unfold roundHalfEven
  rw [hf, if_neg (by linarith), if_neg (by linarith), if_pos hn]

theorem roundHalfEven_tie_odd {x : ℚ} {n : ℤ} (h : x = n + 1 / 2) (hn : n % 2 = 1) :
    roundHalfEven x = n + 1 := by
  have hf : ⌊x⌋ = n := by
    rw [Int.floor_eq_iff]
    constructor <;> linarith
  unfold roundHalfEven
  rw [hf, if_neg (by linarith), if_neg (by linarith), if_neg (by omega)]

theorem log_two_eq {q : ℚ} {e : ℤ} (hlo : (2 : ℚ) ^ e ≤ q) (hhi : q < (2 : ℚ) ^ (e + 1)) :
    Int.log 2 q = e := by
  have hq : 0 < q := lt_of_lt_of_le (by positivity) hlo
  have h1 : e ≤ Int.log 2 q :=
    (Int.zpow_le_iff_le_log (b := 2) (by norm_num) hq).mp (by exact_mod_cast hlo)
  have h2 : Int.log 2 q < e + 1 :=
    (Int.lt_zpow_iff_log_lt (b := 2) (by norm_num) hq).mp (by exact_mod_cast hhi)
  omega

theorem ulp_eq {q : ℚ} {e : ℤ} (hlo : (2 : ℚ) ^ e ≤ q) (hhi : q < (2 : ℚ) ^ (e + 1))
    (he : -1022 ≤ e) : ulp q = 2 ^ (e - 52) := by
  rw [ulp, log_two_eq hlo hhi, max_eq_left he]

theorem roundDouble_of_pos {q : ℚ} {e n : ℤ} (hlo : (2 : ℚ) ^ e ≤ q)
    (hhi : q < (2 : ℚ) ^ (e + 1)) (he : -1022 ≤ e)
    (hn : roundHalfEven (q / 2 ^ (e - 52)) = n)
    (hfin : (n : ℚ) * 2 ^ (e - 52) < 2 ^ (1024 : ℤ)) :
    roundDouble q = .finite ((n : ℚ) * 2 ^ (e - 52)) := by
  have hq : 0 < q := lt_of_lt_of_le (by positivity) hlo
  simp only [roundDouble, abs_of_pos hq, ulp_eq hlo hhi he, hn]
  rw [if_neg (not_le.mpr hfin), if_neg (not_lt.mpr hq.le)]

theorem ulp_pos (a : ℚ) : 0 < ulp a := by
  unfold ulp
  positivity

theorem roundDouble_of_multiple (q : ℚ) (n : ℤ) (hn : |q| / ulp |q| = n)
    (hfin : |q| < 2 ^ (1024 : ℤ)) : roundDouble q = .finite q := by
  have hu := ulp_pos |q|
  have hr : (roundHalfEven (|q| / ulp |q|) : ℚ) * ulp |q| = |q| := by
    rw [hn, roundHalfEven_intCast, ← hn]
    field_simp
  simp only [roundDouble, hr]
  rw [if_neg (not_le.mpr hfin)]
  by_cases h : q < 0
  · rw [if_pos h, abs_of_neg h, neg_neg]
  · rw [if_neg h, abs_of_nonneg (not_lt.mp h)]

theorem roundDouble_exact (q : ℚ) (m j : ℤ) (hq : q = m * 2 ^ j) (hm : |m| < 2 ^ 53)
    (hj : -1074 ≤ j) (hfin : |q| < 2 ^ (1024 : ℤ)) : roundDouble q = .finite q := by
  by_cases hm0 : m = 0
  · subst hm0
    have : q = 0 := by simp [hq]
    subst this
    exact roundDouble_of_multiple 0 0 (by simp) hfin
  · have habs : |q| = (|m| : ℤ) * 2 ^ j := by
      rw [hq, abs_mul, abs_of_pos (a := (2 : ℚ) ^ j) (by positivity)]
      push_cast
      rfl
    have hmpos : (0 : ℚ) < (|m| : ℤ) := by
      exact_mod_cast abs_pos.mpr hm0
    have hapos : 0 < |q| := by
      rw [habs]
      positivity
    have hlt : |q| < (2 : ℚ) ^ (53 + j) := by
      rw [habs, zpow_add₀ (by norm_num : (2 : ℚ) ≠ 0)]
      have this : ((|m| : ℤ) : ℚ) < (2 : ℚ) ^ (53 : ℤ) := by
        have h1 : ((|m| : ℤ) : ℚ) < (((2 : ℤ) ^ (53 : ℕ) : ℤ) : ℚ) := by exact_mod_cast hm
        have h2 : (((2 : ℤ) ^ (53 : ℕ) : ℤ) : ℚ) = (2 : ℚ) ^ (53 : ℤ) := by norm_num
        rw [h2] at h1
        exact h1
      exact mul_lt_mul_of_pos_right this (by positivity)
    have hlog : Int.log 2 |q| < 53 + j :=
      (Int.lt_zpow_iff_log_lt (b := 2) (by norm_num) hapos).mp (by exact_mod_cast hlt)
    have hE : max (Int.log 2 |q|) (-1022) - 52 ≤ j := by
      rcases max_cases (Int.log 2 |q|) (-1022) with ⟨h, _⟩ | ⟨h, _⟩ <;> rw [h] <;> omega
    obtain ⟨E, hEd⟩ : ∃ E, E = max (Int.log 2 |q|) (-1022) - 52 := ⟨_, rfl⟩
    rw [← hEd] at hE
    obtain ⟨k, hk⟩ := Int.eq_ofNat_of_zero_le (sub_nonneg.mpr hE)
    refine roundDouble_of_multiple q (|m| * 2 ^ k) ?_ hfin
    rw [ulp, ← hEd, habs, mul_div_assoc, ← zpow_sub₀ (by norm_num : (2 : ℚ) ≠ 0), hk]
    push_cast
    rw [zpow_natCast]

theorem roundDouble_intCast (k : ℤ) (hk : |k| < 2 ^ 53) : roundDouble (k : ℚ) = .finite k := by
  refine roundDouble_exact k k 0 (by simp) hk (by norm_num) ?_
  have h1 : |(k : ℚ)| < ((2 ^ 53 : ℤ) : ℚ) := by exact_mod_cast hk
  have h2 : (((2 : ℤ) ^ 53 : ℤ) : ℚ) < 2 ^ (1024 : ℤ) := by norm_num
  exact lt_trans h1 h2

theorem floor_le_roundHalfEven (x : ℚ) : ⌊x⌋ ≤ roundHalfEven x := by
  unfold roundHalfEven
  split
  · exact le_refl _
  · split
    · omega
    · split
      · exact le_refl _
      · omega

theorem roundDouble_of_ge {q : ℚ} (h : (2 : ℚ) ^ (1024 : ℤ) ≤ q) :
    roundDouble q = .infinity false := by
  have hq : 0 < q := lt_of_lt_of_le (by positivity) h
  have hlog : (1024 : ℤ) ≤ Int.log 2 q :=
    (Int.zpow_le_iff_le_log (b := 2) (by norm_num) hq).mp (by exact_mod_cast h)
  have hmax : max (Int.log 2 q) (-1022) = Int.log 2 q := max_eq_left (by omega)
  have hself : (2 : ℚ) ^ Int.log 2 q ≤ q := by
    have := Int.zpow_log_le_self (b := 2) (r := q) (by norm_num) hq
    exact_mod_cast this
  have hu : ulp q = 2 ^ (Int.log 2 q - 52) := by rw [ulp, hmax]
  have h52 : (2 : ℚ) ^ (52 : ℤ) * ulp q = 2 ^ Int.log 2 q := by
    rw [hu, ← zpow_add₀ (by norm_num : (2 : ℚ) ≠ 0)]
    congr 1
    ring
  have hcast : (((2 : ℤ) ^ (52 : ℕ) : ℤ) : ℚ) = (2 : ℚ) ^ (52 : ℤ) := by norm_num
  have hx : ((2 : ℤ) ^ (52 : ℕ) : ℤ) ≤ ⌊q / ulp q⌋ := by
    rw [Int.le_floor, hcast, le_div_iff₀ (ulp_pos q), h52]
    exact hself
  have hn : ((2 : ℤ) ^ (52 : ℕ) : ℤ) ≤ roundHalfEven (q / ulp q) :=
    le_trans hx (floor_le_roundHalfEven _)
  have hr : (2 : ℚ) ^ (1024 : ℤ) ≤ (roundHalfEven (q / ulp q) : ℚ) * ulp q := by
    have h1 : (2 : ℚ) ^ (52 : ℤ) ≤ (roundHalfEven (q / ulp q) : ℚ) := by
      rw [← hcast]
      exact_mod_cast hn
    have h2 : (2 : ℚ) ^ (52 : ℤ) * ulp q ≤ (roundHalfEven (q / ulp q) : ℚ) * ulp q :=
      mul_le_mul_of_nonneg_right h1 (ulp_pos q).le
    have h4 : (2 : ℚ) ^ (1024 : ℤ) ≤ 2 ^ Int.log 2 q :=
      zpow_le_zpow_right₀ (by norm_num) hlog
    linarith
  simp only [roundDouble, abs_of_pos hq]
  rw [if_pos hr]
  simp [not_lt.mpr hq.le]

theorem roundHalfEven_sub_le (x : ℚ) : |(roundHalfEven x : ℚ) - x| ≤ 1 / 2 := by
  have h1 := Int.floor_le x
  have h2 := Int.lt_floor_add_one x
  unfold roundHalfEven
  rw [abs_le]
  split
  · constructor <;> linarith
  · split
    · push_cast
      constructor <;> linarith
    · split
      · constructor <;> linarith
      · push_cast
        constructor <;> linarith

theorem roundDouble_ne_nan (q : ℚ) : roundDouble q ≠ .nan := by
  unfold roundDouble
  simp only
  split <;> simp

theorem roundDouble_sub_le {q p : ℚ} (h : roundDouble q = .finite p) :
    |p - q| ≤ ulp |q| / 2 := by
  have hu := ulp_pos |q|
  obtain ⟨r, hrd⟩ : ∃ r : ℚ, r = (roundHalfEven (|q| / ulp |q|) : ℚ) * ulp |q| := ⟨_, rfl⟩
  have hr : abs (r - |q|) ≤ ulp |q| / 2 := by
    have h1 := roundHalfEven_sub_le (|q| / ulp |q|)
    have h2 : r - |q| = ((roundHalfEven (|q| / ulp |q|) : ℚ) - |q| / ulp |q|) * ulp |q| := by
      rw [hrd]
      field_simp
    rw [h2, abs_mul, abs_of_pos hu]
    have h3 := mul_le_mul_of_nonneg_right h1 hu.le
    linarith
  simp only [roundDouble, ← hrd] at h
  split at h
  · cases h
  · injection h with h
    rw [← h]
    by_cases hq : q < 0
    · rw [if_pos hq]
      have hr2 : |r - -q| ≤ ulp |q| / 2 := by
        rw [← abs_of_neg hq]
        exact hr
      rw [abs_le] at hr2 ⊢
      constructor <;> linarith [hr2.1, hr2.2]
    · rw [if_neg hq]
      have hr2 : |r - q| ≤ ulp |q| / 2 := by
        have habs := abs_of_nonneg (not_lt.mp hq)
        rw [habs] at hr
        rw [habs]
        exact hr
      exact hr2

theorem mathRound_intCast (n : ℤ) : mathRound (.finite (n : ℚ)) = .finite (n : ℚ) := by
  have h : ⌊(n : ℚ) + 1 / 2⌋ = n := by
    rw [Int.floor_eq_iff]
    constructor <;> linarith
  simp only [mathRound, h]

theorem toNumber_intCast (stringToNumber : String → JsNum) (k : ℤ) (hk : |k| < 2 ^ 53) :
    toNumber stringToNumber (.num (k : ℚ)) = .finite (k : ℚ) := by
  simp only [toNumber]
  exact roundDouble_intCast k hk

/-! ## Claim about createRazorpayOrder -/

theorem createRazorpayOrder_orders (w : OrderWorld) (body : Body)
    (hnd : delegated body = false) (hreq : orderFieldsPresent body = true) :
    sentAmounts (createRazorpayOrder w body) =
      [mathRound (floatMul (toNumber w.stringToNumber (field body "amount"))
        (.finite 100))] := by
  simp only [delegated] at hnd
  simp only [orderFieldsPresent, Bool.and_eq_true] at hreq
  obtain ⟨⟨⟨h1, h2⟩, h3⟩, h4⟩ := hreq
  simp only [sentAmounts, createRazorpayOrder, hnd, h1, h2, h3, h4]
  simp only [Bool.not_true, Bool.or_self, Bool.false_eq_true, if_false]
  split
  · rfl
  · split <;> rfl

/-- C11, as stated, fails: a request whose amount is an empty object passes the
required-field check and its order carries `NaN`, not an integer; and a request for the
integer amount 360287970189641 is sent with the amount 36028797018964096, which is not
`100 * 360287970189641`, the integer nearest to the exact product. -/
theorem createRazorpayOrder_amount_not_nearest :
    (delegated bodyOrderObjectAmount = false
        ∧ orderFieldsPresent bodyOrderObjectAmount = true
        ∧ sentAmounts (createRazorpayOrder demoOrderWorld bodyOrderObjectAmount) = [.nan]
        ∧ ¬ SendsNearestInteger demoOrderWorld bodyOrderObjectAmount)
      ∧ (delegated bodyOrderLargeAmount = false
        ∧ orderFieldsPresent bodyOrderLargeAmount = true
        ∧ sentAmounts (createRazorpayOrder demoOrderWorld bodyOrderLargeAmount) =
            [.finite 36028797018964096]
        ∧ ¬ SendsNearestInteger demoOrderWorld bodyOrderLargeAmount) := by
  have hnd1 : delegated bodyOrderObjectAmount = false := by decide
  have hreq1 : orderFieldsPresent bodyOrderObjectAmount = true := by decide
  have hnd2 : delegated bodyOrderLargeAmount = false := by decide
  have hreq2 : orderFieldsPresent bodyOrderLargeAmount = true := by
    simp [orderFieldsPresent, bodyOrderLargeAmount, field, List.lookup, truthy]
  have hs1 :
      sentAmounts (createRazorpayOrder demoOrderWorld bodyOrderObjectAmount) = [.nan] := by
    rw [createRazorpayOrder_orders demoOrderWorld _ hnd1 hreq1]
    rfl
  have hf2 : field bodyOrderLargeAmount "amount" = .num ((360287970189641 : ℤ) : ℚ) := by
    simp [bodyOrderLargeAmount, field, List.lookup]
  have hprod : roundDouble (((360287970189641 : ℤ) : ℚ) * 100) =
      .finite 36028797018964096 := by
    have h := roundDouble_of_pos (q := ((360287970189641 : ℤ) : ℚ) * 100) (e := 55)
      (n := 4503599627370512) (by norm_num) (by norm_num) (by norm_num)
      (roundHalfEven_tie_even (by norm_num) (by norm_num)) (by norm_num)
    rw [h]
    norm_num
  have hs2 : sentAmounts (createRazorpayOrder demoOrderWorld bodyOrderLargeAmount) =
      [.finite 36028797018964096] := by
    rw [createRazorpayOrder_orders demoOrderWorld _ hnd2 hreq2, hf2,
      toNumber_intCast _ _ (by norm_num), floatMul, hprod]
    exact congrArg (fun x => [x]) (mathRound_intCast 36028797018964096)
  refine ⟨⟨hnd1, hreq1, hs1, ?_⟩, hnd2, hreq2, hs2, ?_⟩
  · rintro ⟨n, hn, _⟩
    rw [hs1] at hn
    simp at hn
  · rintro ⟨n, hn, hq⟩
    rw [hs2] at hn
    simp only [List.cons.injEq, JsNumber.finite.injEq, and_true] at hn
    have hq2 := hq _ hf2
    rw [← hn] at hq2
    norm_num at hq2

/-- C11, amended: a request that is not delegated and passes the required-field check has
exactly one order sent, with the amount `Math.round(amount * 100)` computed on doubles.
The amount is `NaN` when the request's amount does not convert to a number. When it
converts to the double `a`, let `p` be the double nearest to `a * 100` (within half the
spacing of the doubles there): the amount is the integer `n` with `p - 1/2 < n ≤ p + 1/2`,
or the infinity when `a * 100` is beyond the doubles. For an integer amount `m` with
`|100 * m| < 2 ^ 53` the amount is exactly `100 * m`. -/
theorem createRazorpayOrder_amount (w : OrderWorld) (body : Body)
    (hnd : delegated body = false) (hreq : orderFieldsPresent body = true) :
    ∃ sent : JsNumber,
      sentAmounts (createRazorpayOrder w body) = [sent]
        ∧ (toNumber w.stringToNumber (field body "amount") = .nan → sent = .nan)
        ∧ (∀ negative, toNumber w.stringToNumber (field body "amount") = .infinity negative →
            sent = .infinity negative)
        ∧ (∀ a : ℚ, toNumber w.stringToNumber (field body "amount") = .finite a →
            (∀ p : ℚ, roundDouble (a * 100) = .finite p →
              |p - a * 100| ≤ ulp |a * 100| / 2 ∧
              ∃ n : ℤ, sent = .finite (n : ℚ) ∧ p - 1 / 2 < (n : ℚ) ∧ (n : ℚ) ≤ p + 1 / 2)
            ∧ (∀ negative, roundDouble (a * 100) = .infinity negative →
              sent = .infinity negative))
        ∧ (∀ m : ℤ, field body "amount" = .num (m : ℚ) → |100 * m| < 2 ^ 53 →
            sent = .finite ((100 * m : ℤ) : ℚ)) := by
  refine ⟨_, createRazorpayOrder_orders w body hnd hreq, ?_, ?_, ?_, ?_⟩
  · intro h
    rw [h]
    rfl
  · intro negative h
    have h100 : decide ((100 : ℚ) < 0) = false := by norm_num
    rw [h]
    simp [floatMul, mathRound, h100]
  · intro a h
    rw [h]
    refine ⟨?_, ?_⟩
    · intro p hp
      refine ⟨roundDouble_sub_le hp, ⌊p + 1 / 2⌋, ?_, ?_, ?_⟩
      · simp only [floatMul, hp, mathRound]
      · have := Int.lt_floor_add_one (p + 1 / 2)
        linarith
      · exact Int.floor_le _
    · intro negative hp
      simp only [floatMul, hp, mathRound]
  · intro m hm hlt
    have hm2 : |m| < 2 ^ 53 := by
      rw [abs_lt] at hlt ⊢
      constructor <;> omega
    rw [hm, toNumber_intCast _ m hm2, floatMul]
    have hcast : (m : ℚ) * 100 = ((100 * m : ℤ) : ℚ) := by
      push_cast
      ring
    rw [hcast, roundDouble_intCast _ hlt]
    exact mathRound_intCast _

/-- Witness for C11: the amount 1.125 is a double, its product with 100 is the double
112.5, and the order carries 113, the tie going upward. -/
theorem createRazorpayOrder_amount_witness :
    delegated bodyOrder = false ∧ orderFieldsPresent bodyOrder = true ∧
      sentAmounts (createRazorpayOrder demoOrderWorld bodyOrder) = [.finite 113] := by
  have hnd : delegated bodyOrder = false := by decide
  have hreq : orderFieldsPresent bodyOrder = true := by
    simp [orderFieldsPresent, bodyOrder, field, List.lookup, truthy]
  obtain ⟨sent, hs, _, _, hfin, _⟩ :=
    createRazorpayOrder_amount demoOrderWorld bodyOrder hnd hreq
  have ha : toNumber demoOrderWorld.stringToNumber (field bodyOrder "amount") =
      .finite (9 / 8) := by
    have hf : field bodyOrder "amount" = .num (9 / 8) := by
      simp [bodyOrder, field, List.lookup]
    rw [hf]
    simp only [toNumber]
    exact roundDouble_exact (9 / 8) 9 (-3) (by norm_num) (by norm_num) (by norm_num)
      (by rw [abs_of_pos (by norm_num)]; norm_num)
  have hp : roundDouble ((9 / 8 : ℚ) * 100) = .finite (225 / 2) := by
    rw [show (9 / 8 : ℚ) * 100 = 225 / 2 by norm_num]
    exact roundDouble_exact (225 / 2) 225 (-1) (by norm_num) (by norm_num) (by norm_num)
      (by rw [abs_of_pos (by norm_num)]; norm_num)
  obtain ⟨_, n, hn, h1, h2⟩ := (hfin (9 / 8) ha).1 (225 / 2) hp
  have hn113 : n = 113 := by
    have h3 : (112 : ℚ) < (n : ℚ) := by linarith
    have h4 : (n : ℚ) ≤ 113 := by linarith
    have h5 : (112 : ℤ) < n := by exact_mod_cast h3
    have h6 : n ≤ (113 : ℤ) := by exact_mod_cast h4
    omega
  subst hn113
  rw [hs, hn]
  exact ⟨hnd, hreq, by norm_num⟩

/-- The order amount for the request amount 1.005: the double nearest to 1.005 times 100
is the double 100.49999999999999, so the order carries 100. -/
theorem createRazorpayOrder_amount_literal (w : OrderWorld) :
    mathRound (floatMul (toNumber w.stringToNumber (.num (201 / 200))) (.finite 100)) =
      .finite 100 := by
  have h1 : roundDouble (201 / 200) = .finite (1131529406376837 / 1125899906842624) := by
    have h := roundDouble_of_pos (q := 201 / 200) (e := 0) (n := 4526117625507348)
      (by norm_num) (by norm_num) (by norm_num)
      (roundHalfEven_of_lt (by norm_num [abs_lt])) (by norm_num)
    rw [h]
    norm_num
  have h2 : roundDouble ((1131529406376837 / 1125899906842624 : ℚ) * 100) =
      .finite (7072058789855231 / 70368744177664) := by
    have h := roundDouble_of_pos (q := (1131529406376837 / 1125899906842624 : ℚ) * 100)
      (e := 6) (n := 7072058789855231)
      (by norm_num) (by norm_num) (by norm_num)
      (roundHalfEven_of_lt (by norm_num [abs_lt])) (by norm_num)
    rw [h]
    norm_num
  simp only [toNumber, h1, floatMul, h2, mathRound]
  have hfl : ⌊(7072058789855231 / 70368744177664 : ℚ) + 1 / 2⌋ = 100 := by
    rw [Int.floor_eq_iff]
    constructor <;> norm_num
  rw [hfl]
  norm_num

/-! ## Claims about the listing handlers -/

theorem sortCompare_of_valid {w : ListWorld} {a b : JsVal} {ta tb : ℚ}
    (ha : paymentTime w a = some ta) (hb : paymentTime w b = some tb) :
    sortCompare w a b ≤ 0 ↔ tb ≤ ta := by
  simp [sortCompare, numSub, ha, hb]

theorem sortPayments_perm (w : ListWorld) (rows : List JsVal) :
    (sortPayments w rows).Perm rows :=
  List.perm_insertionSort _ rows

theorem sortPayments_pairwise (w : ListWorld) (rows : List JsVal) (hv : ValidDates w rows) :
    (sortPayments w rows).Pairwise (NotOlder w) := by
  have hkey : ∀ a ∈ rows, ∀ b ∈ rows,
      sortCompare w a b ≤ 0 ↔ (paymentTime w a).getD 0 ≥ (paymentTime w b).getD 0 := by
    intro a ha b hb
    obtain ⟨ta, hta⟩ := hv a ha
    obtain ⟨tb, htb⟩ := hv b hb
    rw [sortCompare_of_valid hta htb, hta, htb]
    rfl
  have hmap := List.map_insertionSort (r := fun a b => sortCompare w a b ≤ 0)
    (s := fun x y : ℚ => x ≥ y) (fun row => (paymentTime w row).getD 0) rows hkey
  have hsorted : List.Sorted (fun x y : ℚ => x ≥ y)
      ((sortPayments w rows).map fun row => (paymentTime w row).getD 0) := by
    rw [sortPayments, hmap]
    exact List.sorted_insertionSort _ _
  have hpw := List.pairwise_map.mp hsorted
  refine hpw.imp_of_mem ?_
  intro a b ha hb hab
  obtain ⟨ta, hta⟩ := hv a ((sortPayments_perm w rows).mem_iff.mp ha)
  obtain ⟨tb, htb⟩ := hv b ((sortPayments_perm w rows).mem_iff.mp hb)
  refine ⟨ta, tb, hta, htb, ?_⟩
  rw [hta, htb] at hab
  exact hab

/-- C14: with a user id given, both queries answering and every row carrying a valid
payment date, `getAllUserPaymentsController` answers 200 with a list that is a permutation
of the property rows followed by the apartment rows and in which every row is at least as
recent as every row after it. -/
theorem getAllUserPaymentsController_sorted (w : ListWorld) (user_id : JsVal)
    (propertyRows apartmentRows : List JsVal) (hu : truthy user_id = true)
    (hp : w.propertyPaymentsQuery user_id = .ok propertyRows)
    (ha : w.apartmentPaymentsQuery user_id = .ok apartmentRows)
    (hv : ValidDates w (propertyRows ++ apartmentRows)) :
    ∃ payments, getAllUserPaymentsController w user_id = .payments 200 none payments
      ∧ payments.Perm (propertyRows ++ apartmentRows)
      ∧ payments.Pairwise (NotOlder w) := by
  refine ⟨sortPayments w (propertyRows ++ apartmentRows), ?_, sortPayments_perm w _,
    sortPayments_pairwise w _ hv⟩
  simp [getAllUserPaymentsController, hu, hp, ha]

/-- Witness for C14: property payments dated 100 and 300 and an apartment payment dated
200 come back in the order 300, 200, 100. -/
theorem getAllUserPaymentsController_sorted_witness :
    getAllUserPaymentsController demoListWorld (.str "u1") =
        .payments 200 none
          [rowDated "property" 300, rowDated "apartment" 200, rowDated "property" 100] ∧
      ∃ payments,
        getAllUserPaymentsController demoListWorld (.str "u1") = .payments 200 none payments
          ∧ payments.Perm ([rowDated "property" 100, rowDated "property" 300] ++
              [rowDated "apartment" 200])
          ∧ payments.Pairwise (NotOlder demoListWorld) :=
  ⟨by
      simp [getAllUserPaymentsController, demoListWorld, truthy, sortPayments, sortCompare,
        paymentTime, rowDated, readOr, getProp, field, List.lookup, numSub]
      norm_num,
    getAllUserPaymentsController_sorted demoListWorld (.str "u1")
      [rowDated "property" 100, rowDated "property" 300] [rowDated "apartment" 200]
      (by decide) rfl rfl (by
        intro row hrow
        simp only [List.cons_append, List.nil_append, List.mem_cons, List.mem_singleton,
          List.not_mem_nil, or_false] at hrow
        rcases hrow with rfl | rfl | rfl <;> exact ⟨_, rfl⟩)⟩

/-- C15, as stated, fails for `getAllPaymentsController`: when the service reports success
without a `payments` field, the answer is 200 but its body is the service's result, which
has no `payments` list. -/
theorem getAllPaymentsController_keeps_absent_payments :
    demoListWorld.getAllPayments = .ok ⟨.bool true, none, []⟩ ∧
      listStatus (getAllPaymentsController demoListWorld) = 200 ∧
      paymentsOf (getAllPaymentsController demoListWorld) = none ∧
      ¬ NormalizesEmpty (getAllPaymentsController demoListWorld) := by
  refine ⟨rfl, rfl, rfl, ?_⟩
  intro h
  have h2 : (none : Option (List JsVal)) = some [] := h.2
  cases h2

/-- C15, amended: when the service reports success with no payments (list empty or
absent), `getUserPaymentHistory` answers 200 with an empty `payments` list, and
`getAllPaymentsController` answers 200 with the service's result unchanged, so its
`payments` field is an empty list when the service's is one; neither answers with an
error. -/
theorem listing_success_without_payments (w : ListWorld) (user_id : JsVal)
    (result : ServiceResult) (hs : truthy result.success = true)
    (hn : noPayments result = true) :
    (truthy user_id = true → w.getUserPayments user_id = .ok result →
        getUserPaymentHistory w user_id =
            .payments 200 (some "No payments found for this user") []
          ∧ NormalizesEmpty (getUserPaymentHistory w user_id))
      ∧ (w.getAllPayments = .ok result →
        getAllPaymentsController w = .result 200 result
          ∧ listStatus (getAllPaymentsController w) = 200
          ∧ (result.payments = some [] → NormalizesEmpty (getAllPaymentsController w))) := by
  constructor
  · intro hu hq
    have h : getUserPaymentHistory w user_id =
        .payments 200 (some "No payments found for this user") [] := by
      simp [getUserPaymentHistory, hu, hq, hs, hn]
    rw [h]
    exact ⟨rfl, rfl, rfl⟩
  · intro hq
    have h : getAllPaymentsController w = .result 200 result := by
      simp [getAllPaymentsController, hq, hs]
    rw [h]
    exact ⟨rfl, rfl, fun hp => ⟨rfl, hp⟩⟩

/-- Witness for the amended C15: the service reports success without a `payments` field. -/
theorem listing_success_without_payments_witness :
    truthy (JsVal.bool true) = true ∧
      getUserPaymentHistory demoListWorld (.str "u1") =
        .payments 200 (some "No payments found for this user") [] ∧
      getAllPaymentsController demoListWorld = .result 200 ⟨.bool true, none, []⟩ :=
  ⟨rfl,
    ((listing_success_without_payments demoListWorld (.str "u1") ⟨.bool true, none, []⟩
      rfl rfl).1 rfl rfl).1,
    ((listing_success_without_payments demoListWorld (.str "u1") ⟨.bool true, none, []⟩
      rfl rfl).2 rfl).1⟩

/-! ## The property branch of generateInvoice -/

theorem generateInvoice_property (w : InvoiceWorld) (payment_id : JsVal) (row : Body)
    (rest : List JsVal) (data : JsVal) (hid : truthy payment_id = true)
    (hl : lookupPayment w payment_id = .ok (.obj row :: rest))
    (ht : field row "payment_type" = .str "property")
    (hd : w.getPyamentData (field row "user_id") (field row "property_id") = .ok data) :
    generateInvoice w payment_id =
      ⟨invoiceResponse ((if truthy (readOr data "payment_summary") then
          spreadOf (readOr data "payment_summary") else inlineSummary w (.obj row)) ++ row),
        some .property⟩ := by
  simp [generateInvoice, hid, hl, getProp, readOr, ht, strictEq, hd, spreadOf]

/-! ## Claim about the lookups of generateInvoice -/

theorem leftJoinRows_ne_nil (sql : Sql) (table : List Body) (key : String) (v : JsVal) :
    leftJoinRows sql table key v ≠ [] := by
  unfold leftJoinRows
  split <;> simp

theorem propertyPaymentRows_eq_nil {sql : Sql} {db : Db} {payment_id : JsVal}
    (h : propertyPaymentRows sql db payment_id = []) :
    ∀ p ∈ db.payments, sql.eq (field p "id") payment_id = false := by
  intro p hp
  cases hq : sql.eq (field p "id") payment_id with
  | false => rfl
  | true =>
    exfalso
    simp only [propertyPaymentRows, List.flatMap_eq_nil_iff] at h
    obtain ⟨pr, hpr⟩ := List.exists_mem_of_ne_nil _
      (leftJoinRows_ne_nil sql db.properties "id" (field p "property_id"))
    obtain ⟨u, hu⟩ := List.exists_mem_of_ne_nil _
      (leftJoinRows_ne_nil sql db.users "id" (field p "user_id"))
    have := h p hp pr hpr u hu
    simp [hq] at this

theorem apartmentPaymentRows_eq_nil {sql : Sql} {db : Db} {payment_id : JsVal}
    (h : ∀ p ∈ db.payments, sql.eq (field p "id") payment_id = false) :
    apartmentPaymentRows sql db payment_id = [] := by
  simp only [apartmentPaymentRows, List.flatMap_eq_nil_iff]
  intro p hp ab _ apt _ au _ u _
  simp [h p hp]

theorem propertyPaymentRows_type {sql : Sql} {db : Db} {payment_id : JsVal} :
    ∀ row ∈ propertyPaymentRows sql db payment_id,
      ∃ fields, row = .obj fields ∧ field fields "payment_type" = .str "property" := by
  intro row hrow
  simp only [propertyPaymentRows, List.mem_flatMap] at hrow
  obtain ⟨p, _, pr, _, u, _, hmem⟩ := hrow
  split at hmem
  · rw [List.mem_singleton] at hmem
    exact ⟨_, hmem, rfl⟩
  · simp at hmem

theorem lookupPayment_db (sql : Sql) (db : Db) (stringToNumber : String → JsNum)
    (getPyamentData : JsVal → JsVal → Except String JsVal) (payment_id : JsVal) :
    lookupPayment (dbInvoiceWorld sql db stringToNumber getPyamentData) payment_id =
      .ok (propertyPaymentRows sql db payment_id) := by
  simp only [lookupPayment, dbInvoiceWorld]
  cases hrows : propertyPaymentRows sql db payment_id with
  | nil =>
    simp [apartmentPaymentRows_eq_nil (propertyPaymentRows_eq_nil hrows)]
  | cons row rest => simp

theorem field_append_of_lookup_none {a b : Body} {k : String}
    (h : a.lookup k = none) : field (a ++ b) k = field b k := by
  induction a with
  | nil => rfl
  | cons x xs ih =>
    obtain ⟨k2, v⟩ := x
    simp only [List.lookup] at h
    simp only [field, List.cons_append, List.lookup]
    cases hk : (k == k2) with
    | true => rw [hk] at h; cases h
    | false =>
      rw [hk] at h
      exact ih h

theorem invoiceResponse_injective {a b : Body} (h : invoiceResponse a = invoiceResponse b) :
    a = b := by
  simpa [invoiceResponse] using h

theorem generateInvoice_of_property_rows (w : InvoiceWorld) (payment_id : JsVal)
    (rows : List JsVal) (hl : lookupPayment w payment_id = .ok rows)
    (ht : ∀ row ∈ rows,
      ∃ fields, row = .obj fields ∧ field fields "payment_type" = .str "property") :
    (generateInvoice w payment_id).branch ≠ some .apartment
      ∧ ∀ invoice, (generateInvoice w payment_id).response = invoiceResponse invoice →
        (generateInvoice w payment_id).branch = some .property
          ∧ ∃ fields data,
            field fields "payment_type" = .str "property"
              ∧ w.getPyamentData (field fields "user_id") (field fields "property_id") =
                .ok data
              ∧ invoice = (if truthy (readOr data "payment_summary") then
                  spreadOf (readOr data "payment_summary")
                else inlineSummary w (.obj fields)) ++ fields := by
  cases hid : truthy payment_id with
  | false =>
    have hg : generateInvoice w payment_id =
        ⟨.fail 400 "Payment ID is required" none none, none⟩ := by
      simp [generateInvoice, hid]
    rw [hg]
    refine ⟨by simp, ?_⟩
    intro invoice h
    simp [invoiceResponse] at h
  | true =>
    cases rows with
    | nil =>
      have hg : generateInvoice w payment_id =
          ⟨.fail 404 "Payment not found" none none, none⟩ := by
        simp [generateInvoice, hid, hl]
      rw [hg]
      refine ⟨by simp, ?_⟩
      intro invoice h
      simp [invoiceResponse] at h
    | cons row rest =>
      obtain ⟨fields, rfl, hty⟩ := ht row (List.mem_cons_self _ _)
      cases hd : w.getPyamentData (field fields "user_id") (field fields "property_id") with
      | error e =>
        have hg : generateInvoice w payment_id =
            ⟨.fail 500 "Server error while generating invoice" none (some e),
              some .property⟩ := by
          simp [generateInvoice, hid, hl, getProp, readOr, hty, strictEq, hd]
        rw [hg]
        refine ⟨by simp, ?_⟩
        intro invoice h
        simp [invoiceResponse] at h
      | ok data =>
        rw [generateInvoice_property w payment_id fields rest data hid hl hty hd]
        refine ⟨by simp, ?_⟩
        intro invoice h
        exact ⟨rfl, fields, data, hty, hd, (invoiceResponse_injective h).symm⟩

/-- C16: over every database, when the first lookup of `generateInvoice` finds no row the
second finds none either, so the rows `generateInvoice` works on are those of the first
lookup, all of payment_type `property`. Hence no invoice is built by the apartment branch,
whatever the payment id; every invoice is built by the property branch from a property row,
and its payment_type is `property` unless the service's summary overrides that field. -/
theorem generateInvoice_never_apartment (sql : Sql) (db : Db)
    (stringToNumber : String → JsNum)
    (getPyamentData : JsVal → JsVal → Except String JsVal) (payment_id : JsVal) :
    (propertyPaymentRows sql db payment_id = [] →
        apartmentPaymentRows sql db payment_id = [])
      ∧ lookupPayment (dbInvoiceWorld sql db stringToNumber getPyamentData) payment_id =
          .ok (propertyPaymentRows sql db payment_id)
      ∧ (generateInvoice (dbInvoiceWorld sql db stringToNumber getPyamentData)
          payment_id).branch ≠ some .apartment
      ∧ (∀ invoice,
          (generateInvoice (dbInvoiceWorld sql db stringToNumber getPyamentData)
            payment_id).response = invoiceResponse invoice →
          (generateInvoice (dbInvoiceWorld sql db stringToNumber getPyamentData)
            payment_id).branch = some .property
          ∧ ((∀ u p data, getPyamentData u p = .ok data →
                (spreadOf (readOr data "payment_summary")).lookup "payment_type" = none) →
              field invoice "payment_type" = .str "property")) := by
  have hlook := lookupPayment_db sql db stringToNumber getPyamentData payment_id
  refine ⟨fun h => apartmentPaymentRows_eq_nil (propertyPaymentRows_eq_nil h), hlook, ?_, ?_⟩
  · exact (generateInvoice_of_property_rows _ payment_id _ hlook
      (fun row hrow => propertyPaymentRows_type row hrow)).1
  · intro invoice hresp
    obtain ⟨hbranch, fields, data, hty, hd, hinv⟩ :=
      (generateInvoice_of_property_rows _ payment_id _ hlook
        (fun row hrow => propertyPaymentRows_type row hrow)).2 invoice hresp
    refine ⟨hbranch, ?_⟩
    intro hsum
    rw [hinv]
    by_cases hs : truthy (readOr data "payment_summary") = true
    · rw [if_pos hs, field_append_of_lookup_none (hsum _ _ data hd)]
      exact hty
    · rw [if_neg hs, field_append_of_lookup_none (by rfl)]
      exact hty

/-- Witness for C16: a payment that belongs to an apartment booking, which the second
lookup would find, is invoiced by the property branch. -/
theorem generateInvoice_never_apartment_witness :
    (apartmentPaymentRows demoSql demoDb (.str "1")).length = 1 ∧
      (generateInvoice (dbInvoiceWorld demoSql demoDb (fun _ => none) (fun _ _ => .ok .null))
        (.str "1")).branch = some .property ∧
      (generateInvoice (dbInvoiceWorld demoSql demoDb (fun _ => none) (fun _ _ => .ok .null))
        (.str "1")).branch ≠ some .apartment :=
  ⟨by decide, rfl,
    (generateInvoice_never_apartment demoSql demoDb (fun _ => none) (fun _ _ => .ok .null)
      (.str "1")).2.2.1⟩

/-! ## The invoice of a payment in a database -/

theorem orZero_num (q : ℚ) : orZero (.num q) = .num q := by
  unfold orZero
  by_cases h : q = 0
  · subst h
    simp [truthy]
  · simp [truthy, h]

theorem inlineSummary_no_price (w : InvoiceWorld) (row : Body)
    (hp : field row "price" = .undefined) :
    inlineSummary w (.obj row) =
      [("full_property_price", .num 0),
       ("deposit_amount", orZero (field row "total_price")),
       ("total_paid", orZero (field row "amount_paid")),
       ("pending_amount",
         ofNumber (floatSub (.finite 0)
           (toNumber w.stringToNumber (orZero (field row "amount_paid"))))),
       ("percentage_paid", .num 0)] := by
  have h0 : toNumber w.stringToNumber (.num 0) = .finite 0 := by
    have h := toNumber_intCast w.stringToNumber 0 (by norm_num)
    simpa using h
  have h1 : orZero .undefined = .num 0 := rfl
  have h2 : greaterThanZero w.stringToNumber .undefined = false := rfl
  simp only [inlineSummary, readOr, getProp, hp, h1, h2, h0, Bool.false_eq_true, if_false]

theorem inlineSummary_no_price_num (w : InvoiceWorld) (row : Body) (A : ℤ)
    (hp : field row "price" = .undefined) (ha : field row "amount_paid" = .num (A : ℚ))
    (hA : |A| < 2 ^ 53) :
    inlineSummary w (.obj row) =
      [("full_property_price", .num 0),
       ("deposit_amount", orZero (field row "total_price")),
       ("total_paid", .num (A : ℚ)),
       ("pending_amount", .num ((-A : ℤ) : ℚ)),
       ("percentage_paid", .num 0)] := by
  have hsub : roundDouble ((0 : ℚ) - (A : ℚ)) = .finite ((-A : ℤ) : ℚ) := by
    have h := roundDouble_intCast (-A) (by rwa [abs_neg])
    have hc : (0 : ℚ) - (A : ℚ) = ((-A : ℤ) : ℚ) := by
      push_cast
      ring
    rw [hc]
    exact h
  rw [inlineSummary_no_price w row hp, ha, orZero_num, toNumber_intCast _ A hA, floatSub,
    hsub]
  rfl

/-- C12: in the database `demoPropertyDb` user 5 has paid 250 on property 7, priced 1000,
and the service gives no summary. The row of the first lookup carries the name of the
property and no price, so the invoice of that payment has the full price 0, percentage_paid
0 and pending_amount -250, where a summary made from the price of the property has 1000,
25 and 750. -/
theorem generateInvoice_property_price_unread :
    demoPropertyDb.properties.map (fun pr => (field pr "id", field pr "price")) =
        [(.num 7, .num 1000)]
      ∧ ∃ row invoice,
          propertyPaymentRows demoSql demoPropertyDb (.str "1") = [.obj row]
            ∧ field row "property_id" = .num 7
            ∧ field row "property_name" = .str "Hill House"
            ∧ field row "price" = .undefined
            ∧ generateInvoice
                (dbInvoiceWorld demoSql demoPropertyDb (fun _ => none) (fun _ _ => .ok .null))
                (.str "1") = ⟨invoiceResponse invoice, some .property⟩
            ∧ field invoice "full_property_price" = .num 0
            ∧ field invoice "deposit_amount" = .num 1000
            ∧ field invoice "total_paid" = .num 250
            ∧ field invoice "pending_amount" = .num (-250)
            ∧ field invoice "percentage_paid" = .num 0 := by
  have hrows : propertyPaymentRows demoSql demoPropertyDb (.str "1") =
      [.obj ([("property_name", .str "Hill House"), ("location", .str "Pune"),
        ("user_name", .str "Asha Rao"), ("email", .str "asha@example.com"),
        ("payment_type", .str "property"), ("id", .str "1"), ("user_id", .num 5),
        ("property_id", .num 7), ("total_price", .num 1000), ("amount_paid", .num 250)])] := by
    simp [propertyPaymentRows, demoPropertyDb, demoSql, leftJoinRows, column, field,
      List.lookup, strictEq]
  have hl := lookupPayment_db demoSql demoPropertyDb (fun _ => none) (fun _ _ => .ok .null)
    (.str "1")
  rw [hrows] at hl
  have hg := generateInvoice_property _ (.str "1") _ [] .null (by decide) hl rfl rfl
  have hsum := inlineSummary_no_price_num
    (dbInvoiceWorld demoSql demoPropertyDb (fun _ => none) (fun _ _ => .ok .null))
    [("property_name", .str "Hill House"), ("location", .str "Pune"),
      ("user_name", .str "Asha Rao"), ("email", .str "asha@example.com"),
      ("payment_type", .str "property"), ("id", .str "1"), ("user_id", .num 5),
      ("property_id", .num 7), ("total_price", .num 1000), ("amount_paid", .num 250)]
    250 rfl (by simp [field, List.lookup]) (by norm_num)
  rw [if_neg (by decide), hsum] at hg
  refine ⟨by simp [demoPropertyDb, field, List.lookup], _, _, hrows, rfl, rfl, rfl, hg,
    ?_, ?_, ?_, ?_, ?_⟩ <;>
    simp [field, List.lookup, orZero, truthy]

/-- C13: in the database `demoDb` the one payment belongs to an apartment booking (the
second lookup would find it, with its unit), and is paid in full: 900 of 900. Its invoice
is built by the property branch from the row of the first lookup: payment_type `property`,
percentage_paid 0 and pending_amount -900, and no unit_details, where an apartment invoice
has percentage_paid 100, pending_amount 0 and the unit_details of the booked unit. -/
theorem generateInvoice_apartment_payment_as_property :
    (apartmentPaymentRows demoSql demoDb (.str "1")).map
        (fun r => (readOr r "payment_type", readOr r "unit_number")) =
        [(.str "apartment", .str "B-12")]
      ∧ ∃ invoice,
          generateInvoice
              (dbInvoiceWorld demoSql demoDb (fun _ => none) (fun _ _ => .ok .null))
              (.str "1") = ⟨invoiceResponse invoice, some .property⟩
            ∧ field invoice "payment_type" = .str "property"
            ∧ field invoice "total_paid" = .num 900
            ∧ field invoice "percentage_paid" = .num 0
            ∧ field invoice "pending_amount" = .num (-900)
            ∧ invoice.lookup "unit_details" = none := by
  have hrows : propertyPaymentRows demoSql demoDb (.str "1") =
      [.obj ([("property_name", .null), ("location", .null),
        ("user_name", .str "Asha Rao"), ("email", .str "asha@example.com"),
        ("payment_type", .str "property"), ("id", .str "1"), ("user_id", .num 5),
        ("property_id", .null), ("total_price", .num 900), ("amount_paid", .num 900)])] := by
    simp [propertyPaymentRows, demoDb, demoSql, leftJoinRows, column, field,
      List.lookup, strictEq]
  have hl := lookupPayment_db demoSql demoDb (fun _ => none) (fun _ _ => .ok .null)
    (.str "1")
  rw [hrows] at hl
  have hg := generateInvoice_property _ (.str "1") _ [] .null (by decide) hl rfl rfl
  have hsum := inlineSummary_no_price_num
    (dbInvoiceWorld demoSql demoDb (fun _ => none) (fun _ _ => .ok .null))
    [("property_name", .null), ("location", .null),
      ("user_name", .str "Asha Rao"), ("email", .str "asha@example.com"),
      ("payment_type", .str "property"), ("id", .str "1"), ("user_id", .num 5),
      ("property_id", .null), ("total_price", .num 900), ("amount_paid", .num 900)]
    900 rfl (by simp [field, List.lookup]) (by norm_num)
  rw [if_neg (by decide), hsum] at hg
  refine ⟨by simp [apartmentPaymentRows, demoDb, demoSql, joinRows, field, List.lookup,
    strictEq, readOr, getProp], _, hg, ?_, ?_, ?_, ?_, ?_⟩ <;>
    simp [field, List.lookup, orZero, truthy]

/-- The percentage of the inline summary for a row that does carry a price: 23 paid of the
price 40. The quotient of the doubles is the double 0.575, its product with 100 is the
double 57.49999999999999, and the percentage is 57. -/
theorem inlineSummary_percentage_literal (w : InvoiceWorld) :
    field (inlineSummary w (.obj [("price", .num 40), ("amount_paid", .num 23)]))
      "percentage_paid" = .num 57 := by
  have h40 : toNumber w.stringToNumber (.num 40) = .finite 40 := by
    have h := toNumber_intCast w.stringToNumber 40 (by norm_num)
    simpa using h
  have h23 : toNumber w.stringToNumber (.num 23) = .finite 23 := by
    have h := toNumber_intCast w.stringToNumber 23 (by norm_num)
    simpa using h
  have h1 : roundDouble ((23 : ℚ) / 40) = .finite (2589569785738035 / 4503599627370496) := by
    have h := roundDouble_of_pos (q := (23 : ℚ) / 40) (e := -1) (n := 5179139571476070)
      (by norm_num) (by norm_num) (by norm_num)
      (roundHalfEven_of_lt (by norm_num [abs_lt])) (by norm_num)
    rw [h]
    norm_num
  have h2 : roundDouble ((2589569785738035 / 4503599627370496 : ℚ) * 100) =
      .finite (8092405580431359 / 140737488355328) := by
    have h := roundDouble_of_pos (q := (2589569785738035 / 4503599627370496 : ℚ) * 100)
      (e := 5) (n := 8092405580431359)
      (by norm_num) (by norm_num) (by norm_num)
      (roundHalfEven_of_lt (by norm_num [abs_lt])) (by norm_num)
    rw [h]
    norm_num
  have hfl : ⌊(8092405580431359 / 140737488355328 : ℚ) + 1 / 2⌋ = 57 := by
    rw [Int.floor_eq_iff]
    constructor <;> norm_num
  have hgt : greaterThanZero w.stringToNumber (.num 40) = true := by
    simp [greaterThanZero, h40]
  have hdiv : floatDiv (.finite 23) (.finite 40) =
      .finite (2589569785738035 / 4503599627370496) := by
    simp only [floatDiv]
    rw [if_neg (by norm_num), h1]
  simp only [inlineSummary, readOr, getProp, field, List.lookup]
  simp only [show ("price" == "price") = true by decide,
    show ("amount_paid" == "price") = false by decide,
    show ("amount_paid" == "amount_paid") = true by decide,
    show ("percentage_paid" == "full_property_price") = false by decide,
    show ("percentage_paid" == "deposit_amount") = false by decide,
    show ("percentage_paid" == "total_paid") = false by decide,
    show ("percentage_paid" == "pending_amount") = false by decide,
    show ("percentage_paid" == "percentage_paid") = true by decide,
    hgt, if_true, h23, h40, hdiv, floatMul, h2, mathRound, hfl, ofNumber]
  norm_num

end PaymentController
